import Mathlib

/-!
Verification of the decision-ledger core pipeline (sheet classification,
entity detection, relationship graph, gap analysis, constraint extraction,
decision grouping) against its natural-language specification.

The Python source is shallowly embedded: pandas DataFrames become
column-major sheets of optional cells, floats become `Rat`, dicts become
association lists (insertion-ordered, like Python dicts), and the random
`uuid.uuid4()` id factory becomes an explicit id-supply parameter.
Comparisons the source makes against a standard deviation `s < c` are
encoded over the (rational) variance as `s^2 < c^2`, which is equivalent
since both sides are nonnegative.
-/

namespace DecisionLedger

/-- A cell of a table: a numeric value, a text value, or missing (NaN/None). -/
inductive CellVal where
  | num (q : Rat)
  | str (s : String)
  | null
deriving DecidableEq, Repr

namespace CellVal

def isNull : CellVal → Bool
  | .null => true
  | _ => false

def isStr : CellVal → Bool
  | .str _ => true
  | _ => false

def isNum : CellVal → Bool
  | .num _ => true
  | _ => false

end CellVal

/-- A named column of cells (one entry per row, possibly null). -/
structure Col where
  name : String
  cells : List CellVal
deriving DecidableEq, Repr

/-- A named sheet: an ordered list of columns, all of the same length. -/
structure Sheet where
  name : String
  cols : List Col
deriving DecidableEq, Repr

/-- A workbook: ordered sheets (Python dict of DataFrames, insertion order). -/
abbrev Workbook := List Sheet

/-! ### Basic pandas-style column statistics -/

/-- Non-null cells of a column (`series.dropna()`). -/
def nonNullCells (cs : List CellVal) : List CellVal :=
  cs.filter (fun c => !c.isNull)

/-- The numeric values of a column's cells. -/
def numsOf (cs : List CellVal) : List Rat :=
  cs.filterMap (fun c => match c with | .num q => some q | _ => none)

/-- Number of distinct non-null values (`series.nunique()`). -/
def nunique (cs : List CellVal) : Nat :=
  (nonNullCells cs).dedup.length

/-- A column has pandas numeric dtype iff no cell is a string
(an all-null column is a float column of NaNs, hence numeric). -/
def numericDtype (c : Col) : Bool :=
  c.cells.all (fun v => !v.isStr)

def ratSum (xs : List Rat) : Rat := xs.foldr (· + ·) 0

/-- Mean of a list of rationals (callers only use it on nonempty lists,
matching pandas `.mean()` which is NaN on empty input). -/
def ratMean (xs : List Rat) : Rat := ratSum xs / xs.length

/-- Minimum of a nonempty list (`series.min()`). -/
def ratMin (xs : List Rat) : Option Rat :=
  xs.foldr (fun x acc => match acc with | none => some x | some y => some (min x y)) none

/-- Maximum of a nonempty list (`series.max()`). -/
def ratMax (xs : List Rat) : Option Rat :=
  xs.foldr (fun x acc => match acc with | none => some x | some y => some (max x y)) none

/-- Sample variance with ddof=1, as used by pandas `.std()`/`.var()`;
`none` when fewer than two observations (pandas yields NaN there, and
every comparison against a NaN is false). -/
def sampleVar (xs : List Rat) : Option Rat :=
  if xs.length ≤ 1 then none
  else
    let m := ratMean xs
    some (ratSum (xs.map (fun x => (x - m) ^ 2)) / (xs.length - 1 : Nat))

/-- Encodes `series.std() < c` for a nonnegative bound `c`: since the standard
deviation is the nonnegative square root of the variance, `std < c ↔ var < c²`. -/
def stdLt (v : Option Rat) (c : Rat) : Bool :=
  match v with
  | none => false
  | some var => var < c ^ 2

/-! ## SheetClassifier (`core/sheet_classifier.py`) -/

/-- `ontology.ColumnSemanticType`. -/
inductive SemanticType where
  | entityId | entityName | temporal | quantity | currency | percentage
  | status | remark | dimension | metric | unknown
deriving DecidableEq, Repr

/-- `ontology.SheetRole`. -/
inductive Role where
  | master | transactional | plan | actual | summary | comparison | unknown
deriving DecidableEq, Repr

/-- The numeric `statistical_profile` dict of `_analyze_column`; the standard
deviation is carried as the sample variance (`varOpt`, ddof = 1, `none` when
it is NaN) and compared via `stdLt`. -/
structure StatProfile where
  mean : Rat
  varOpt : Option Rat
  minV : Rat
  maxV : Rat
  hasNegatives : Bool
  allIntegers : Bool
deriving DecidableEq, Repr

/-- The per-column profile dict built by `SheetClassifier._analyze_column`. -/
structure ColProfile where
  name : String
  nullRatio : Rat
  uniqueCount : Nat
  uniqueRatio : Rat
  semanticType : SemanticType
  isPotentialKey : Bool
  stat : Option StatProfile
deriving DecidableEq, Repr

/-- `str(value)` for a cell: exact for text cells and for integral numerics
(the only cells the analyzed workbooks ever stringify); non-integral
numerics are rendered as `num/den`. -/
def cellToStr : CellVal → String
  | .str s => s
  | .num q => if q.den = 1 then toString q.num else toString q.num ++ "/" ++ toString q.den
  | .null => "nan"

/-- Models `pd.to_datetime(x, errors="coerce")` succeeding: numbers parse
(epoch offsets) and strings parse exactly when they contain a digit. All
cells in the workbooks analyzed concretely below are letter-only strings or
numbers in numeric-dtype columns, where this is exact. The date value
itself is abstracted to epoch 0; only parse success/failure feeds any claim. -/
def parseDateVal : CellVal → Option Int
  | .str s => if s.toList.any Char.isDigit then some 0 else none
  | .num _ => some 0
  | .null => none

/-- `SheetClassifier._is_temporal`: numeric dtype is never temporal here
(no datetime64 columns are modelled); object columns sample up to 20
non-null values and need a > 0.8 parse ratio. -/
def isTemporal (col : Col) : Bool :=
  if numericDtype col then false
  else
    let sample := (nonNullCells col.cells).take 20
    if sample.length = 0 then false
    else decide (((sample.countP (fun v => (parseDateVal v).isSome)) : Rat) / sample.length > 0.8)

/-- Number of decimal digits of `str(x)` after the point: 0 for integers,
otherwise the length of the shortest terminating decimal expansion
(capped at 17); exact for the float values pandas prints. -/
def decimalPlaces (q : Rat) : Nat :=
  if q.den = 1 then 0
  else ((List.range 17).find? (fun k => (q * (10 : Rat) ^ (k + 1)).den = 1)).elim 17 (· + 1)

/-- `SheetClassifier._classify_numeric`. -/
def classifyNumericCol (col : Col) : SemanticType :=
  let nonNull := numsOf col.cells
  if nonNull.isEmpty then .metric
  else
    let minVal := (ratMin nonNull).getD 0
    let maxVal := (ratMax nonNull).getD 0
    if 0 ≤ minVal ∧ maxVal ≤ 1 then .percentage
    else if 0 ≤ minVal ∧ maxVal ≤ 100 ∧ ratMean nonNull < 50 ∧ stdLt (sampleVar nonNull) 30 then
      .percentage
    else if minVal ≥ 0 ∧
        ((nonNull.countP (fun x => decimalPlaces x = 2) : Rat) / nonNull.length > 0.5 ∧
          maxVal > 100) then
      .currency
    else
      let uniqueRatio := ((nonNullCells col.cells).dedup.length : Rat) / nonNull.length
      let allIntegers := nonNull.all (fun x => x.den = 1)
      if uniqueRatio > 0.9 ∧ allIntegers then .entityId
      else if allIntegers ∧ minVal ≥ 0 then .quantity
      else .metric

/-- `SheetClassifier._classify_text`. -/
def classifyTextCol (col : Col) : SemanticType :=
  let strs := (nonNullCells col.cells).map cellToStr
  if strs.isEmpty then .unknown
  else
    let uniqueRatio := ((nonNullCells col.cells).dedup.length : Rat) / strs.length
    let avgLength := ratMean (strs.map (fun s => (s.length : Rat)))
    if uniqueRatio > 0.8 ∧ 3 < avgLength ∧ avgLength < 50 then .entityName
    else if uniqueRatio < 0.1 then
      (if (nonNullCells col.cells).dedup.length < 10 then .status else .dimension)
    else if avgLength > 50 then .remark
    else if uniqueRatio < 0.5 then .dimension
    else .entityName

/-- `SheetClassifier._infer_semantic_type`. -/
def inferSemanticType (col : Col) : SemanticType :=
  if (nonNullCells col.cells).isEmpty then .unknown
  else if isTemporal col then .temporal
  else if numericDtype col then classifyNumericCol col
  else classifyTextCol col

/-- `SheetClassifier._analyze_column`. -/
def analyzeColumn (col : Col) : ColProfile :=
  let nonNull := nonNullCells col.cells
  let totalCount := col.cells.length
  let nonNullCount := nonNull.length
  let uniqueRatio : Rat := if nonNullCount > 0 then (nunique col.cells : Rat) / nonNullCount else 0
  let base : ColProfile :=
    { name := col.name
      nullRatio := if totalCount > 0 then 1 - (nonNullCount : Rat) / totalCount else 1
      uniqueCount := nunique col.cells
      uniqueRatio := uniqueRatio
      semanticType := .unknown
      isPotentialKey := false
      stat := none }
  if nonNullCount = 0 then base
  else
    { base with
      semanticType := inferSemanticType col
      isPotentialKey := decide (uniqueRatio > 0.9)
      stat :=
        if numericDtype col then
          let xs := numsOf col.cells
          some
            { mean := ratMean xs
              varOpt := sampleVar xs
              minV := (ratMin xs).getD 0
              maxV := (ratMax xs).getD 0
              hasNegatives := xs.any (fun x => decide (x < 0))
              allIntegers := xs.all (fun x => x.den = 1) }
        else none }

/-- Number of rows of a sheet (length of its first column). -/
def sheetRowCount (cols : List Col) : Nat :=
  (cols.head?).elim 0 (fun c => c.cells.length)

/-- The aggregation-pattern check of `_detect_aggregations` on one numeric
column's non-null values: the last value approximately equals (±1% relative)
the sum of the preceding ones. -/
def aggPatternCheck (values : List Rat) : Bool :=
  match values.getLast? with
  | none => false
  | some lastVal =>
    let potentialSum := ratSum (values.dropLast)
    if lastVal ≠ 0 then decide (|potentialSum - lastVal| < 0.01 * |lastVal|)
    else decide (potentialSum = 0)

/-- `SheetClassifier._detect_aggregations`. -/
def detectAggregations (cols : List Col) (profiles : List ColProfile) : Bool :=
  let rows := sheetRowCount cols
  if rows < 3 then false
  else
    let numericSem := profiles.filter
      (fun p => p.semanticType ∈ [SemanticType.quantity, .currency, .metric])
    if rows < 20 ∧ (numericSem.length : Rat) > (profiles.length : Rat) * 0.5 then true
    else
      cols.any (fun c =>
        numericDtype c &&
        (let values := numsOf c.cells
         decide (3 ≤ values.length) && aggPatternCheck values))

/-- Whether some ordered pair drawn from the list satisfies `f` (the
`for i, p1 ... for p2 in list[i+1:]` double loop). -/
def anyPair {α : Type} (f : α → α → Bool) : List α → Bool
  | [] => false
  | x :: xs => xs.any (f x) || anyPair f xs

/-- `SheetClassifier._detect_comparisons`. Note the Python truthiness test
`if stats1.get('min') and stats2.get('min')`: a pair is only compared when
both minima are present and nonzero. -/
def detectComparisons (profiles : List ColProfile) : Bool :=
  let numericProfiles := profiles.filter
    (fun p => p.semanticType ∈ [SemanticType.quantity, .currency, .metric, .percentage])
  if numericProfiles.length < 2 then false
  else if
    anyPair
      (fun p1 p2 =>
        match p1.stat, p2.stat with
        | some st1, some st2 =>
          st1.minV ≠ 0 && st2.minV ≠ 0 &&
          (let range1 := st1.maxV - st1.minV
           let range2 := st2.maxV - st2.minV
           decide (range1 > 0) && decide (range2 > 0) &&
           decide (min range1 range2 / max range1 range2 > 0.5))
        | _, _ => false)
      numericProfiles
  then true
  else
    profiles.any (fun p => match p.stat with | some st => st.hasNegatives | none => false)

def intListMin (xs : List Int) : Option Int :=
  xs.foldr (fun x acc => match acc with | none => some x | some y => some (min x y)) none

def intListMax (xs : List Int) : Option Int :=
  xs.foldr (fun x acc => match acc with | none => some x | some y => some (max x y)) none

/-- `SheetClassifier._detect_temporal_coverage`, iterating temporal columns;
`now` is the wall clock in days and `pd.Timedelta(days=30)` is 30. -/
def coverageOfCols (now : Int) : List Col → String
  | [] => "none"
  | c :: rest =>
    let dates := c.cells.filterMap parseDateVal
    match intListMin dates, intListMax dates with
    | some minDate, some maxDate =>
      if maxDate > now + 30 then (if minDate < now then "mixed" else "future")
      else if minDate < now - 30 then "past"
      else coverageOfCols now rest
    | _, _ => coverageOfCols now rest

def detectTemporalCoverage (now : Int) (cols : List Col) (profiles : List ColProfile) : String :=
  let temporalNames := (profiles.filter (fun p => p.semanticType = .temporal)).map (·.name)
  if temporalNames.isEmpty then "none"
  else coverageOfCols now (cols.filter (fun c => c.name ∈ temporalNames))

/-- `SheetClassifier._infer_role`: additive scores per role hypothesis; the
first maximal score wins (Python `max` over the insertion-ordered dict). -/
def inferRole (rowCount : Nat) (numericColRatio textColRatio : Rat)
    (temporalCols : Nat) (uniqueRatioAvg : Rat) (hasAgg hasCmp : Bool)
    (coverage : String) (profiles : List ColProfile) : Role × Rat :=
  let master : Rat :=
    (if textColRatio > 0.4 ∧ uniqueRatioAvg > 0.6 ∧ temporalCols = 0 then 0.4 else 0) +
    (if profiles.any (·.isPotentialKey) then 0.2 else 0)
  let transactional : Rat :=
    (if temporalCols > 0 ∧ rowCount > 20 then 0.3 else 0) +
    (if coverage = "past" then 0.2 else 0)
  let plan : Rat :=
    (if coverage = "future" then 0.5 else 0) +
    (if coverage = "mixed" ∧ numericColRatio > 0.5 then 0.3 else 0)
  let actual : Rat := if coverage = "past" ∧ numericColRatio > 0.5 then 0.4 else 0
  let summary : Rat :=
    (if hasAgg then 0.4 else 0) +
    (if rowCount < 20 ∧ numericColRatio > 0.6 then 0.2 else 0)
  let comparison : Rat := if hasCmp then 0.5 else 0
  let scores : List (Role × Rat) :=
    [(.master, master), (.transactional, transactional), (.plan, plan),
     (.actual, actual), (.summary, summary), (.comparison, comparison)]
  let best := scores.foldl (fun acc rs => if rs.2 > acc.2 then rs else acc) (.master, master)
  if best.2 < 0.2 then (.unknown, best.2) else (best.1, min best.2 1)

/-- `SheetProfile` (sheet_classifier.SheetProfile). -/
structure SheetProfile where
  name : String
  rowCount : Nat
  colCount : Nat
  numericColRatio : Rat
  temporalColCount : Nat
  textColRatio : Rat
  nullRatio : Rat
  uniqueRatioAvg : Rat
  hasAggregations : Bool
  hasComparisons : Bool
  temporalCoverage : String
  inferredRole : Role
  confidence : Rat
  columnProfiles : List ColProfile
deriving DecidableEq, Repr

/-- The zero-confidence UNKNOWN profile for empty/columnless sheets. -/
def emptyProfile (name : String) : SheetProfile :=
  { name := name, rowCount := 0, colCount := 0, numericColRatio := 0,
    temporalColCount := 0, textColRatio := 0, nullRatio := 0, uniqueRatioAvg := 0,
    hasAggregations := false, hasComparisons := false, temporalCoverage := "none",
    inferredRole := .unknown, confidence := 0, columnProfiles := [] }

/-- `SheetClassifier._analyze_sheet`. -/
def analyzeSheet (now : Int) (s : Sheet) : SheetProfile :=
  let kept := s.cols.filter (fun c => !c.name.startsWith "Unnamed:")
  let cols := if kept.isEmpty then s.cols else kept
  let rows := sheetRowCount cols
  if rows = 0 ∨ cols.length = 0 then emptyProfile s.name
  else
    let columnProfiles := cols.map analyzeColumn
    let numericCols := columnProfiles.countP
      (fun p => p.semanticType ∈ [SemanticType.quantity, .currency, .percentage, .metric])
    let temporalCols := columnProfiles.countP (fun p => p.semanticType = .temporal)
    let textCols := columnProfiles.countP
      (fun p => p.semanticType ∈ [SemanticType.entityName, .remark, .status])
    let colCount := cols.length
    let numericColRatio : Rat := if colCount > 0 then (numericCols : Rat) / colCount else 0
    let textColRatio : Rat := if colCount > 0 then (textCols : Rat) / colCount else 0
    let nullCells := ratSum (cols.map (fun c => ((c.cells.countP (·.isNull)) : Rat)))
    let nullRatio : Rat :=
      if rows * colCount > 0 then nullCells / ((rows * colCount : Nat) : Rat) else 0
    let uniqueRatioAvg := ratMean (columnProfiles.map (·.uniqueRatio))
    let hasAggregations := detectAggregations cols columnProfiles
    let hasComparisons := detectComparisons columnProfiles
    let temporalCoverage := detectTemporalCoverage now cols columnProfiles
    let rc := inferRole rows numericColRatio textColRatio temporalCols uniqueRatioAvg
      hasAggregations hasComparisons temporalCoverage columnProfiles
    { name := s.name, rowCount := rows, colCount := colCount,
      numericColRatio := numericColRatio, temporalColCount := temporalCols,
      textColRatio := textColRatio, nullRatio := nullRatio,
      uniqueRatioAvg := uniqueRatioAvg, hasAggregations := hasAggregations,
      hasComparisons := hasComparisons, temporalCoverage := temporalCoverage,
      inferredRole := rc.1, confidence := rc.2, columnProfiles := columnProfiles }

/-- `SheetClassifier._refine_classifications`: when a PLAN sheet exists but no
ACTUAL, the highest-confidence TRANSACTIONAL sheet (first maximal, Python
`max`) is upgraded to ACTUAL. -/
def refineClassifications (ps : List SheetProfile) : List SheetProfile :=
  let hasPlan := ps.any (fun p => p.inferredRole = .plan)
  let hasActual := ps.any (fun p => p.inferredRole = .actual)
  if hasPlan ∧ ¬hasActual then
    match ps.filter (fun p => p.inferredRole = .transactional) with
    | [] => ps
    | t :: ts =>
      let best := (t :: ts).foldl (fun acc p => if p.confidence > acc.confidence then p else acc) t
      ps.map (fun p => if p.name = best.name then { p with inferredRole := Role.actual } else p)
  else ps

/-- `SheetClassifier.classify_all_sheets`. -/
def classifyAllSheets (now : Int) (wb : Workbook) : List SheetProfile :=
  refineClassifications (wb.map (analyzeSheet now))

/-- Dict lookup `profiles.get(sheet_name)`. -/
def getProfile (ps : List SheetProfile) (name : String) : Option SheetProfile :=
  ps.find? (fun p => p.name = name)

/-! ## Engine normalization (`decision_engine._normalize_datasets`) -/

/-- Drop rows in which every column is null (`df.dropna(how="all", axis=0)`). -/
def dropAllNullRows (cols : List Col) : List Col :=
  let keep := (List.range (sheetRowCount cols)).filter
    (fun r => cols.any (fun c => !(c.cells.getD r .null).isNull))
  cols.map (fun c => { c with cells := keep.map (fun r => c.cells.getD r .null) })

/-- Rename duplicated column names `d` to `d_0, d_1, …` (all occurrences). -/
def renameDupCols (cols : List Col) : List Col :=
  let names := cols.map (·.name)
  (cols.enum).map (fun ci =>
    if 2 ≤ names.count ci.2.name then
      { ci.2 with name := ci.2.name ++ "_" ++ toString ((names.take ci.1).count ci.2.name) }
    else ci.2)

/-- `DecisionIntelligenceEngine._normalize_datasets` for one sheet: strip
column names, drop `Unnamed:` columns, drop all-null rows then all-null
columns, dedupe column names; `none` when the sheet is skipped as empty. -/
def normalizeSheet (s : Sheet) : Option Sheet :=
  if s.cols.isEmpty ∨ sheetRowCount s.cols = 0 then none
  else
    let cols1 := s.cols.map (fun c => { c with name := c.name.trim })
    let cols2 := cols1.filter (fun c => !c.name.startsWith "Unnamed:")
    if cols2.isEmpty then none
    else
      let cols3 := dropAllNullRows cols2
      let cols4 := cols3.filter (fun c => c.cells.any (fun v => !v.isNull))
      if cols4.isEmpty ∨ sheetRowCount cols4 = 0 then none
      else some { name := s.name, cols := renameDupCols cols4 }

def normalizeDatasets (wb : Workbook) : Workbook :=
  wb.filterMap normalizeSheet

/-! ## Text utilities (regex semantics used by the extractors) -/

/-- Python regex `\w` (ASCII): letters, digits, underscore. -/
def isWordChar (c : Char) : Bool := c.isAlphanum || c == '_'

/-- `\s`: whitespace. -/
def isSpaceChar (c : Char) : Bool := c.isWhitespace

def listStartsWith : List Char → List Char → Bool
  | [], _ => true
  | _ :: _, [] => false
  | p :: ps, c :: cs => p == c && listStartsWith ps cs

/-- Word boundary `\b` after a prefix of length `n` in `t`: the next char is
absent or not a word character (all searched words end in word characters). -/
def boundaryAfter (n : Nat) (t : List Char) : Bool :=
  match t.drop n with
  | [] => true
  | c :: _ => !isWordChar c

/-- `re.match(p ++ "\\b", t)` for a literal alternative `p` starting a word. -/
def matchesWordAt (w : List Char) (t : List Char) : Bool :=
  listStartsWith w t && boundaryAfter w.length t

/-- `re.search("\\b" ++ w ++ "\\b", t)`: `w` occurs delimited by word
boundaries. `atBoundary` tracks whether the previous char was a non-word
char (or the string start). -/
def occursAsWordAux (w : List Char) : List Char → Bool → Bool
  | [], _ => false
  | c :: rest, atBoundary =>
    (atBoundary && matchesWordAt w (c :: rest)) || occursAsWordAux w rest (!isWordChar c)

def occursAsWord (w : List Char) (t : List Char) : Bool :=
  occursAsWordAux w t true

/-- `re.search(w ++ "\\b", t)`: occurrence with a boundary only after. -/
def occursWithBoundaryAfter (w : List Char) : List Char → Bool
  | [] => false
  | c :: rest =>
    (listStartsWith w (c :: rest) && boundaryAfter w.length (c :: rest)) ||
    occursWithBoundaryAfter w rest

/-- Plain substring occurrence. -/
def occursSubstr (w : List Char) : List Char → Bool
  | [] => w.isEmpty
  | c :: rest => listStartsWith w (c :: rest) || occursSubstr w rest

/-! ## EntityDetector (`core/entity_detector.py`) -/

/-- `entity_detector.EntityCandidate`. `uniqueValues` is the Python set of
distinct stringified values, modelled in first-occurrence order (set
iteration order is interpreter-dependent; no claim depends on it). -/
structure EntityCandidate where
  columnName : String
  sheetName : String
  uniqueValues : List String
  cardinality : Nat
  uniqueRatio : Rat
  valuePattern : String
  avgLength : Rat
  isNumericId : Bool
deriving DecidableEq, Repr

/-- `^[A-Z]{2,4}[-_]?\d+$` with full backtracking semantics. -/
def patCodeLike (s : List Char) : Bool :=
  let upp := s.takeWhile Char.isUpper
  let rest := s.drop upp.length
  2 ≤ upp.length && upp.length ≤ 4 &&
    (let rest2 := match rest with
      | c :: cs => if c == '-' || c == '_' then cs else c :: cs
      | [] => []
     !rest2.isEmpty && rest2.all Char.isDigit)

/-- `EntityDetector._detect_pattern`: first pattern (in source dict order)
matching > 80% of a ≤100-value sample. -/
def detectPatternStr (values : List String) : String :=
  let sample := values.take 100
  let checks : List (String × (List Char → Bool)) :=
    [("numeric", fun cs => !cs.isEmpty && cs.all Char.isDigit),
     ("alpha", fun cs => !cs.isEmpty && cs.all Char.isAlpha),
     ("alphanumeric", fun cs => !cs.isEmpty && cs.all Char.isAlphanum),
     ("with_spaces", fun cs => !cs.isEmpty && cs.all (fun c => isWordChar c || isSpaceChar c)),
     ("code_like", patCodeLike),
     ("mixed", fun _ => true)]
  match checks.find?
      (fun nc => decide (((sample.countP (fun v => nc.2 v.toList)) : Rat) / sample.length > 0.8)) with
  | some nc => nc.1
  | none => "mixed"

/-- `EntityDetector._is_entity_candidate`. -/
def isEntityCandidate (p : ColProfile) (col : Col) : Bool :=
  if p.semanticType ∈ [SemanticType.entityId, .entityName] then true
  else if p.semanticType = .dimension ∧
      2 ≤ nunique col.cells ∧ ((nunique col.cells : Rat) ≤ (col.cells.length : Rat) * 0.8) then
    true
  else decide (p.uniqueRatio > 0.7) && decide (2 ≤ nunique col.cells)

/-- `EntityDetector._create_candidate`. -/
def createCandidate (colName sheetName : String) (col : Col) : Option EntityCandidate :=
  let nonNull := nonNullCells col.cells
  if nonNull.isEmpty then none
  else
    let strValues := nonNull.map cellToStr
    let uniqueValues := strValues.dedup
    if uniqueValues.length < 2 then none
    else
      some
        { columnName := colName
          sheetName := sheetName
          uniqueValues := uniqueValues
          cardinality := uniqueValues.length
          uniqueRatio := (uniqueValues.length : Rat) / nonNull.length
          valuePattern := detectPatternStr uniqueValues
          avgLength := ratMean (strValues.map (fun s => (s.length : Rat)))
          isNumericId := numericDtype col && decide ((nunique col.cells : Rat) / nonNull.length > 0.9) }

/-- `EntityDetector._find_candidates`. -/
def findCandidates (wb : Workbook) (profiles : List SheetProfile) : List EntityCandidate :=
  wb.foldr
    (fun s acc =>
      (match getProfile profiles s.name with
       | none => []
       | some prof =>
         prof.columnProfiles.filterMap (fun cp =>
           match s.cols.find? (fun c => c.name = cp.name) with
           | none => none
           | some col =>
             if isEntityCandidate cp col then createCandidate cp.name s.name col else none)) ++ acc)
    []

/-- `EntityDetector._calculate_similarity`. -/
def calculateSimilarity (c1 c2 : EntityCandidate) : Rat :=
  let overlap := (c1.uniqueValues.filter (fun v => v ∈ c2.uniqueValues)).length
  let unionCard := c1.uniqueValues.length + c2.uniqueValues.length - overlap
  if unionCard = 0 then 0
  else
    let jaccard : Rat := (overlap : Rat) / unionCard
    let patternMatch : Rat := if c1.valuePattern = c2.valuePattern then 1 else 0.3
    let cardRatio : Rat :=
      ((min c1.cardinality c2.cardinality : Nat) : Rat) / ((max c1.cardinality c2.cardinality : Nat) : Rat)
    let lenRatio : Rat :=
      if max c1.avgLength c2.avgLength > 0 then
        min c1.avgLength c2.avgLength / max c1.avgLength c2.avgLength
      else 0
    0.5 * jaccard + 0.2 * patternMatch + 0.15 * cardRatio + 0.15 * lenRatio

/-- `EntityDetector._cluster_candidates`: the visited-array single pass —
each yet-unvisited candidate seeds a group and absorbs every later
unvisited candidate whose similarity to the seed is ≥ 0.3. The fuel is the
list length (each step strictly shrinks the remaining list). -/
def clusterAux (sim : EntityCandidate → EntityCandidate → Rat) :
    Nat → List EntityCandidate → List (List EntityCandidate)
  | 0, _ => []
  | _, [] => []
  | fuel + 1, c :: rest =>
    let joins := rest.filter (fun d => decide ((0.3 : Rat) ≤ sim c d))
    let stays := rest.filter (fun d => !decide ((0.3 : Rat) ≤ sim c d))
    (c :: joins) :: clusterAux sim fuel stays

def clusterCandidates (cands : List EntityCandidate) : List (List EntityCandidate) :=
  clusterAux calculateSimilarity cands.length cands

/-- `ontology.Entity` (the fields `detect_entities` fills). -/
structure Entity where
  id : String
  canonicalName : String
  sourceColumns : List String
  sourceSheets : List String
  cardinality : Nat
  isPrimary : Bool
deriving DecidableEq, Repr

/-- `EntityDetector._choose_canonical_name`: highest readability score,
first maximal (Python `max`). -/
def chooseCanonicalName (group : List EntityCandidate) : String :=
  let names : List (String × Nat) := group.map (fun c =>
    (c.columnName,
      (if !c.isNumericId then 2 else 0) +
      (if c.valuePattern ∈ ["alpha", "with_spaces"] then 1 else 0) +
      (if c.cardinality > 5 then 1 else 0)))
  match names with
  | [] => ""
  | n :: ns => ((n :: ns).foldl (fun acc x => if x.2 > acc.2 then x else acc) n).1

/-- Python-dict association list: replacing an existing key keeps its
position, a fresh key is appended. -/
def insertAssoc {α β : Type} [DecidableEq α] (m : List (α × β)) (k : α) (v : β) :
    List (α × β) :=
  if m.any (fun p => p.1 = k) then m.map (fun p => if p.1 = k then (k, v) else p)
  else m ++ [(k, v)]

def lookupAssoc {α β : Type} [DecidableEq α] (m : List (α × β)) (k : α) : Option β :=
  (m.find? (fun p => decide (p.1 = k))).map (·.2)

/-- The `EntityDetector` instance state filled by `detect_entities`:
`entities` (id → Entity), `column_to_entity` ((sheet, col) → id) and
`value_index` (value → ids, a Python set modelled in insertion order). -/
structure DetectorState where
  entities : List (String × Entity)
  columnToEntity : List ((String × String) × String)
  valueIndex : List (String × List String)
deriving DecidableEq, Repr

def emptyDetector : DetectorState := ⟨[], [], []⟩

def addToValueIndex {ι : Type} [DecidableEq ι] (vi : List (String × List ι)) (value : String)
    (eid : ι) : List (String × List ι) :=
  match lookupAssoc vi value with
  | some ids => insertAssoc vi value (if eid ∈ ids then ids else ids ++ [eid])
  | none => vi ++ [(value, [eid])]

/-- One step of `EntityDetector._create_entities` for a nonempty group,
given the uuid the `Entity()` constructor draws. -/
def createEntityStep (st : DetectorState) (uuid : String) (group : List EntityCandidate) :
    DetectorState :=
  let canonicalName := chooseCanonicalName group
  let sourceColumns := (group.map (·.columnName)).dedup
  let sourceSheets := (group.map (·.sheetName)).dedup
  let allValues := ((group.map (·.uniqueValues)).foldl (· ++ ·) []).dedup
  let isPrimary := decide (sourceSheets.length > 1) || group.any (fun c => decide (c.uniqueRatio > 0.9))
  let e : Entity :=
    { id := uuid, canonicalName := canonicalName, sourceColumns := sourceColumns,
      sourceSheets := sourceSheets, cardinality := allValues.length, isPrimary := isPrimary }
  { entities := insertAssoc st.entities e.id e
    columnToEntity :=
      group.foldl (fun m c => insertAssoc m (c.sheetName, c.columnName) e.id) st.columnToEntity
    valueIndex := allValues.foldl (fun vi v => addToValueIndex vi v e.id) st.valueIndex }

/-- `EntityDetector._create_entities`: each nonempty group becomes one Entity
whose id is the next fresh uuid from the supply (`uuid.uuid4()` draws,
numbered in creation order). -/
def createEntities (supply : Nat → String) (groups : List (List EntityCandidate)) :
    DetectorState :=
  (groups.foldl
    (fun acc group =>
      match group with
      | [] => acc
      | _ :: _ => (createEntityStep acc.1 (supply acc.2) group, acc.2 + 1))
    (emptyDetector, 0)).1

/-- `EntityDetector.detect_entities`. -/
def detectEntities (supply : Nat → String) (wb : Workbook) (profiles : List SheetProfile) :
    DetectorState :=
  createEntities supply (clusterCandidates (findCandidates wb profiles))

/-- `EntityDetector.get_entity_for_column`. -/
def getEntityForColumn (st : DetectorState) (sheetName columnName : String) : Option Entity :=
  match lookupAssoc st.columnToEntity (sheetName, columnName) with
  | some eid => lookupAssoc st.entities eid
  | none => none

/-- `EntityDetector.find_entities_by_value`. -/
def findEntitiesByValue (st : DetectorState) (value : String) : List Entity :=
  match lookupAssoc st.valueIndex value with
  | some ids => ids.filterMap (fun eid => lookupAssoc st.entities eid)
  | none => []

/-! ## GapAnalyzer: gap record construction
(`core/gap_analyzer.py`, `GapAnalyzer._create_gap` / `_calculate_severity`) -/

/-- A Gap record (`ontology.Gap`), restricted to the fields `_create_gap`
fills; the uuid id is supplied by the caller's id stream. -/
structure Gap where
  entityId : String
  metricName : String
  planValue : Option Rat
  actualValue : Option Rat
  absoluteGap : Rat
  percentageGap : Rat
  direction : String
  severity : String
deriving DecidableEq, Repr

/-- `GapAnalyzer._calculate_severity`: severity from the percentage gap. -/
def calculateSeverity (percentageGap : Rat) : String :=
  let absGap := |percentageGap|
  if absGap < 5 then "normal"
  else if absGap < 15 then "warning"
  else "critical"

/-- The gap arithmetic of `GapAnalyzer._create_gap` (absolute gap, percentage
gap, direction, severity) for one matched plan/actual value pair. -/
def createGapFields (planValue actualValue : Rat) : Rat × Rat × String × String :=
  let absoluteGap := actualValue - planValue
  let percentageGap :=
    if planValue ≠ 0 then (absoluteGap / planValue) * 100
    else if actualValue ≠ 0 then (100 : Rat) else 0
  let direction :=
    if |percentageGap| < 5 then "on_target"
    else if actualValue < planValue then "under"
    else "over"
  (absoluteGap, percentageGap, direction, calculateSeverity percentageGap)

/-- `ontology.Plan` (the fields `_create_gap` fills). -/
structure PlanRec where
  entityId : String
  metricName : String
  targetValue : Rat
  sourceSheet : String
  confidence : Rat
deriving DecidableEq, Repr

/-- `ontology.Actual` (the fields `_create_gap` fills). -/
structure ActualRec where
  entityId : String
  metricName : String
  actualValue : Rat
  confidence : Rat
deriving DecidableEq, Repr

/-- `GapAnalyzer._create_gap`: the gap record built from a matched
plan/actual pair, together with the paired Plan/Actual provenance records
it appends. The entity id resolves to the first entity the value index
reports for `entityVal`, else stays the raw value. -/
def createGap (entityVal metricName : String) (planValue actualValue : Rat)
    (det : DetectorState) (planSheet : String) : Gap × PlanRec × ActualRec :=
  let f := createGapFields planValue actualValue
  let entityId :=
    match findEntitiesByValue det entityVal with
    | e :: _ => e.id
    | [] => entityVal
  ({ entityId := entityId
     metricName := metricName
     planValue := some planValue
     actualValue := some actualValue
     absoluteGap := f.1
     percentageGap := f.2.1
     direction := f.2.2.1
     severity := f.2.2.2 },
   { entityId := entityId, metricName := metricName, targetValue := planValue,
     sourceSheet := planSheet, confidence := 0.8 },
   { entityId := entityId, metricName := metricName, actualValue := actualValue,
     confidence := 0.8 })

/-- Numeric rank of a severity level (normal < warning < critical). -/
def severityRank (s : String) : Nat :=
  if s = "normal" then 0 else if s = "warning" then 1 else 2

/-! ## GapAnalyzer: the three strategies (`gap_analyzer.analyze_gaps`) -/

def findSheet (wb : Workbook) (name : String) : Option Sheet :=
  wb.find? (fun s => s.name = name)

def colByName (s : Sheet) (name : String) : Option Col :=
  s.cols.find? (fun c => c.name = name)

/-- `df.loc[idx, col]` (null when the column is absent or the row is out of
range). -/
def getCellByName (s : Sheet) (colName : String) (idx : Nat) : CellVal :=
  match colByName s colName with
  | some c => c.cells.getD idx .null
  | none => .null

/-- `GapAnalyzer._find_common_entities`: columns of the first sheet whose
entity also owns some column of the second sheet. -/
def findCommonEntities (s1 s2 : Sheet) (det : DetectorState) : List String :=
  s1.cols.filterMap (fun c1 =>
    match getEntityForColumn det s1.name c1.name with
    | none => none
    | some e1 =>
      if s2.cols.any (fun c2 =>
          match getEntityForColumn det s2.name c2.name with
          | some e2 => e2.id = e1.id
          | none => false)
      then some c1.name else none)

/-- `GapAnalyzer._column_similarity_score`. -/
def columnSimilarityScore (s1 s2 : List Rat) : Rat :=
  if s1.isEmpty ∨ s2.isEmpty then 0
  else
    let range1 := (ratMax s1).getD 0 - (ratMin s1).getD 0
    let range2 := (ratMax s2).getD 0 - (ratMin s2).getD 0
    if range1 = 0 ∨ range2 = 0 then 0
    else
      let rangeRatio := min range1 range2 / max range1 range2
      let mean1 := ratMean s1
      let mean2 := ratMean s2
      let meanRatio :=
        if mean1 = 0 ∧ mean2 = 0 then 1
        else if mean1 = 0 ∨ mean2 = 0 then 0
        else min |mean1| |mean2| / max |mean1| |mean2|
      0.5 * rangeRatio + 0.5 * meanRatio

/-- `GapAnalyzer._match_metric_columns`: per plan column, the first
best-scoring actual column, kept when its score exceeds 0.3 (the Python
`if best_match` truthiness test holds for the nonempty column names used
here). -/
def matchMetricColumns (planS actualS : Sheet) : List (String × String) :=
  let planNumeric := planS.cols.filter numericDtype
  let actualNumeric := actualS.cols.filter numericDtype
  planNumeric.filterMap (fun pc =>
    let best := actualNumeric.foldl
      (fun acc ac =>
        let score := columnSimilarityScore (numsOf pc.cells) (numsOf ac.cells)
        if score > acc.2 then (some ac.name, score) else acc)
      ((none : Option String), (0 : Rat))
    match best.1 with
    | some name => if best.2 > 0.3 then some (pc.name, name) else none
    | none => none)

/-- `GapAnalyzer._extract_gaps_from_sheets`: the outer merge of the two
sheets on the entity column, keeping the key-matched rows with both metric
values present (unmatched and null-keyed rows carry a NaN side and are
skipped; output in plan-row-major order). The actual sheet is addressed by
the same column name, as `pd.merge(on=entity_col)` requires. -/
def extractGapsFromSheets (planS actualS : Sheet) (entityCol planMetric actualMetric : String)
    (det : DetectorState) : List (Gap × PlanRec × ActualRec) :=
  (List.range (sheetRowCount planS.cols)).foldr
    (fun i acc =>
      (let key := getCellByName planS entityCol i
       if key.isNull then []
       else
         (List.range (sheetRowCount actualS.cols)).filterMap (fun j =>
           if getCellByName actualS entityCol j = key then
             match getCellByName planS planMetric i, getCellByName actualS actualMetric j with
             | .num pv, .num av =>
               some (createGap (cellToStr key) planMetric pv av det planS.name)
             | _, _ => none
           else none)) ++ acc)
    []

/-- `GapAnalyzer._analyze_separate_sheets` (strategy 1). -/
def analyzeSeparateSheets (wb : Workbook) (profiles : List SheetProfile)
    (det : DetectorState) : List (Gap × PlanRec × ActualRec) :=
  let planSheets := (profiles.filter (fun p => p.inferredRole = .plan)).map (·.name)
  let actualSheets :=
    (profiles.filter (fun p => p.inferredRole ∈ [Role.actual, .transactional])).map (·.name)
  planSheets.foldr
    (fun pn acc =>
      (match findSheet wb pn with
       | none => []
       | some planS =>
         actualSheets.foldr
           (fun an acc2 =>
             (match findSheet wb an with
              | none => []
              | some actualS =>
                let commonEntities := findCommonEntities planS actualS det
                if commonEntities.isEmpty then []
                else
                  let metricPairs := matchMetricColumns planS actualS
                  commonEntities.foldr
                    (fun ec acc3 =>
                      metricPairs.foldr
                        (fun mp acc4 =>
                          extractGapsFromSheets planS actualS ec mp.1 mp.2 det ++ acc4)
                        [] ++ acc3)
                    []) ++ acc2)
           []) ++ acc)
    []

/-- Rows where both cells are numeric (`df[[c1, c2]].corr` pairing). -/
def pairedVals (c1 c2 : Col) : List (Rat × Rat) :=
  (c1.cells.zip c2.cells).filterMap (fun p =>
    match p with
    | (.num x, .num y) => some (x, y)
    | _ => none)

/-- Encodes `df[col1].corr(df[col2]) > 0.7` over the pairwise-complete
observations, and false when the correlation is NaN (fewer than two pairs
or zero variance): with centered sums `Sxy, Sxx, Syy`, the Pearson
correlation exceeds 0.7 iff `Sxy > 0` and `Sxy² > 0.49·Sxx·Syy`. -/
def corrGt07 (ps : List (Rat × Rat)) : Bool :=
  if ps.length < 2 then false
  else
    let xs := ps.map (·.1)
    let ys := ps.map (·.2)
    let mx := ratMean xs
    let my := ratMean ys
    let sxx := ratSum (xs.map (fun x => (x - mx) ^ 2))
    let syy := ratSum (ys.map (fun y => (y - my) ^ 2))
    let sxy := ratSum (ps.map (fun p => (p.1 - mx) * (p.2 - my)))
    if sxx = 0 ∨ syy = 0 then false
    else decide (0 < sxy) && decide (0.49 * (sxx * syy) < sxy ^ 2)

def orderedPairs {α : Type} : List α → List (α × α)
  | [] => []
  | x :: xs => xs.map (fun y => (x, y)) ++ orderedPairs xs

/-- `GapAnalyzer._detect_comparison_pairs`: correlated (> 0.7) numeric column
pairs with differing variance (ratio < 0.8); the lower-variance column is
taken as the plan. The stored correlation/confidence floats are dropped:
nothing downstream reads them. -/
def detectComparisonPairs (numericCols : List Col) : List (String × String) :=
  (orderedPairs numericCols).filterMap (fun cc =>
    if !corrGt07 (pairedVals cc.1 cc.2) then none
    else
      match sampleVar (numsOf cc.1.cells), sampleVar (numsOf cc.2.cells) with
      | some v1, some v2 =>
        if 0 < v1 ∧ 0 < v2 then
          if min v1 v2 / max v1 v2 < 0.8 then
            some (if v1 < v2 then (cc.1.name, cc.2.name) else (cc.2.name, cc.1.name))
          else none
        else none
      | _, _ => none)

/-- `GapAnalyzer._extract_gaps_from_columns`: per-row gaps from a plan/actual
column pair inside one sheet; the entity column is the first column owned
by a primary entity. -/
def extractGapsFromColumns (s : Sheet) (planCol actualCol : String) (det : DetectorState) :
    List (Gap × PlanRec × ActualRec) :=
  let entityCol := s.cols.find? (fun c =>
    match getEntityForColumn det s.name c.name with
    | some e => e.isPrimary
    | none => false)
  (List.range (sheetRowCount s.cols)).filterMap (fun idx =>
    match getCellByName s planCol idx, getCellByName s actualCol idx with
    | .num pv, .num av =>
      let entityVal :=
        match entityCol with
        | some c => cellToStr (c.cells.getD idx .null)
        | none => "row_" ++ toString idx
      some (createGap entityVal planCol pv av det s.name)
    | _, _ => none)

/-- `GapAnalyzer._analyze_column_pairs` (strategy 2). -/
def analyzeColumnPairs (wb : Workbook) (profiles : List SheetProfile)
    (det : DetectorState) : List (Gap × PlanRec × ActualRec) :=
  wb.foldr
    (fun s acc =>
      (match getProfile profiles s.name with
       | none => []
       | some _ =>
         let numericCols := s.cols.filter numericDtype
         if numericCols.length < 2 then []
         else
           (detectComparisonPairs numericCols).foldr
             (fun pr acc2 => extractGapsFromColumns s pr.1 pr.2 det ++ acc2) []) ++ acc)
    []

/-- `GapAnalyzer._calculate_severity_from_diff`: z-score severity, encoded
over the variance (`z < c ↔ diff² < c²·var`); NaN std (a single
observation) fails every comparison, yielding "critical". -/
def severityFromDiff (diffValue : Rat) (varOpt : Option Rat) : String :=
  match varOpt with
  | none => "critical"
  | some var =>
    if var = 0 then "normal"
    else if diffValue ^ 2 < var then "normal"
    else if diffValue ^ 2 < 4 * var then "warning"
    else "critical"

/-- `GapAnalyzer._analyze_difference_columns`: gaps from pre-computed
difference columns (negatives present, mean near zero) of one sheet. -/
def analyzeDifferenceColumns (s : Sheet) (det : DetectorState) : List Gap :=
  (s.cols.filter numericDtype).foldr
    (fun c acc =>
      (let series := numsOf c.cells
       if series.isEmpty then []
       else
         let hasNegatives := series.any (fun x => decide (x < 0))
         let nearZeroMean :=
           match sampleVar series with
           | some var => decide (0 < var) && decide ((ratMean series) ^ 2 < var * 0.25)
           | none => false
         if hasNegatives && nearZeroMean then
           (List.range (sheetRowCount s.cols)).filterMap (fun idx =>
             match c.cells.getD idx .null with
             | .num val =>
               if |val| > 0.01 then
                 let entityCol := s.cols.find? (fun cc =>
                   (getEntityForColumn det s.name cc.name).isSome)
                 let entityVal :=
                   match entityCol with
                   | some cc => cellToStr (cc.cells.getD idx .null)
                   | none => "row_" ++ toString idx
                 some
                   { entityId := entityVal, metricName := c.name, planValue := none,
                     actualValue := none, absoluteGap := val, percentageGap := 0,
                     direction := if val < 0 then "under" else "over",
                     severity := severityFromDiff val (sampleVar series) }
               else none
             | _ => none)
         else []) ++ acc)
    []

/-- `GapAnalyzer._analyze_comparison_sheets` (strategy 3). -/
def analyzeComparisonSheets (wb : Workbook) (profiles : List SheetProfile)
    (det : DetectorState) : List Gap :=
  let comparisonSheets :=
    (profiles.filter (fun p => p.inferredRole = .comparison || p.hasComparisons)).map (·.name)
  comparisonSheets.foldr
    (fun n acc =>
      (match findSheet wb n with
       | none => []
       | some s => analyzeDifferenceColumns s det) ++ acc)
    []

/-- `GapAnalyzer.analyze_gaps`: the three strategies in order, with the
Plan/Actual provenance records the first two append. -/
def analyzeGaps (wb : Workbook) (profiles : List SheetProfile) (det : DetectorState) :
    List Gap × List PlanRec × List ActualRec :=
  let g1 := analyzeSeparateSheets wb profiles det
  let g2 := analyzeColumnPairs wb profiles det
  let g3 := analyzeComparisonSheets wb profiles det
  (g1.map (·.1) ++ g2.map (·.1) ++ g3,
   g1.map (·.2.1) ++ g2.map (·.2.1),
   g1.map (·.2.2) ++ g2.map (·.2.2))

/-- The gap stage of `DecisionIntelligenceEngine.analyze`: normalize,
classify, detect entities, analyze gaps. -/
def pipelineGaps (now : Int) (supply : Nat → String) (wb : Workbook) : List Gap :=
  let norm := normalizeDatasets wb
  let profiles := classifyAllSheets now norm
  let det := detectEntities supply norm profiles
  (analyzeGaps norm profiles det).1

/-! ## ConstraintExtractor (`core/constraint_extractor.py`) -/

/-- `ontology.Constraint` (the fields the extractor fills; the
`extracted_values` dict is omitted — no claim reads it). -/
structure Constraint where
  entityId : Option String
  constraintType : String
  description : String
  sourceText : String
  sourceSheet : String
  sourceColumn : String
  severity : String
deriving DecidableEq, Repr

/-- An apostrophe (U+0027). -/
def apos : Char := Char.ofNat 39

/-- The alternation branches of the prefix regex `^(un|non|not?|dis|im|in)\b`
(`not?` contributes both `no` and `not`). -/
def negationStartTokens : List (List Char) :=
  [['u','n'], ['n','o','n'], ['n','o'], ['n','o','t'], ['d','i','s'], ['i','m'], ['i','n']]

/-- The word alternatives of `\b(not|no|none|never|cannot|cant|won't|wouldn't)\b`. -/
def negationWords : List (List Char) :=
  [['n','o','t'], ['n','o'], ['n','o','n','e'], ['n','e','v','e','r'],
   ['c','a','n','n','o','t'], ['c','a','n','t'],
   ['w','o','n', apos, 't'], ['w','o','u','l','d','n', apos, 't']]

/-- `ConstraintExtractor._has_negation_pattern`. -/
def hasNegationPattern (t : List Char) : Bool :=
  negationStartTokens.any (fun p => matchesWordAt p t) ||
  negationWords.any (fun w => occursAsWord w t)

/-- `ConstraintExtractor._has_process_pattern`: `re.search("ing\\b")` or a
literal ellipsis. -/
def hasProcessPattern (t : List Char) : Bool :=
  occursWithBoundaryAfter ['i','n','g'] t || occursSubstr ['.','.','.'] t

/-- `ConstraintExtractor._classify_status_structurally`. -/
def classifyStatusStructurally (status : String) (proportion : Rat) : Option String :=
  if proportion < 0.05 then
    if hasNegationPattern status.toList then some "blocking" else some "exception"
  else if proportion < 0.2 then
    if hasProcessPattern status.toList then some "in_progress" else some "dependency"
  else none

/-- Stable insertion into a count-descending list (pandas `value_counts`
sorts by count descending, ties by first appearance). -/
def insertByCountDesc (x : CellVal × Nat) : List (CellVal × Nat) → List (CellVal × Nat)
  | [] => [x]
  | y :: ys => if y.2 ≥ x.2 then y :: insertByCountDesc x ys else x :: y :: ys

def sortByCountDesc : List (CellVal × Nat) → List (CellVal × Nat)
  | [] => []
  | x :: xs => insertByCountDesc x (sortByCountDesc xs)

/-- `series.value_counts()`: distinct non-null values with their counts,
count-descending. -/
def valueCounts (cs : List CellVal) : List (CellVal × Nat) :=
  sortByCountDesc ((nonNullCells cs).dedup.map (fun v => (v, (nonNullCells cs).count v)))

/-- `ConstraintExtractor._identify_blocking_statuses`: the dict mapping each
minority (< 30%) status, lower-cased and stripped, to its structural class. -/
def identifyBlockingStatuses (counts : List (CellVal × Nat)) : List (String × String) :=
  let total : Nat := (counts.map (·.2)).foldr (· + ·) 0
  counts.foldl
    (fun blocking vc =>
      let statusLower := (cellToStr vc.1).trim.toLower
      let proportion : Rat := (vc.2 : Rat) / (total : Rat)
      if proportion < 0.3 then
        match classifyStatusStructurally statusLower proportion with
        | some t => insertAssoc blocking statusLower t
        | none => blocking
      else blocking)
    []

/-- `ConstraintExtractor._severity_from_constraint_type`. -/
def severityFromConstraintType (constraintType : String) : String :=
  if constraintType ∈ ["blocking", "deadline", "critical"] then "high"
  else if constraintType ∈ ["dependency", "resource", "capacity"] then "medium"
  else "low"

/-- `ConstraintExtractor._get_row_entity`: the stringified value of the first
column owned by a primary entity whose cell in this row is non-null. -/
def getRowEntity (s : Sheet) (idx : Nat) (det : DetectorState) : Option String :=
  (s.cols.find? (fun c =>
    (match getEntityForColumn det s.name c.name with
     | some e => e.isPrimary
     | none => false) && !(c.cells.getD idx .null).isNull)).map
    (fun c => cellToStr (c.cells.getD idx .null))

/-- `ConstraintExtractor._extract_from_status`. -/
def extractFromStatus (s : Sheet) (colName : String) (det : DetectorState) : List Constraint :=
  match colByName s colName with
  | none => []
  | some col =>
    let blocking := identifyBlockingStatuses (valueCounts col.cells)
    (List.range (sheetRowCount s.cols)).filterMap (fun idx =>
      let v := col.cells.getD idx .null
      if v.isNull then none
      else
        let statusStr := (cellToStr v).trim.toLower
        match lookupAssoc blocking statusStr with
        | some ctype =>
          some
            { entityId := getRowEntity s idx det
              constraintType := ctype
              description := "Status indicates " ++ ctype ++ ": " ++ cellToStr v
              sourceText := cellToStr v
              sourceSheet := s.name
              sourceColumn := colName
              severity := severityFromConstraintType ctype }
        | none => none)

/-- `constraint_extractor.TextPattern` (extracted-values dict omitted). -/
structure TextPattern where
  patternType : String
  matchedText : String
  confidence : Rat
deriving DecidableEq, Repr

/-- `\d+(?:\.\d+)?` at the head: the numeric token and the remainder. -/
def numTokenAt (cs : List Char) : Option (List Char × List Char) :=
  let ds := cs.takeWhile Char.isDigit
  if ds.isEmpty then none
  else
    let r1 := cs.drop ds.length
    match r1 with
    | c :: r2 =>
      if c == '.' then
        let ds2 := r2.takeWhile Char.isDigit
        if ds2.isEmpty then some (ds, r1)
        else some (ds ++ c :: ds2, r2.drop ds2.length)
      else some (ds, r1)
    | [] => some (ds, r1)

/-- The unit alternation `%|units?|days?|weeks?|months?|hours?`, tried in
order, the optional plural `s` taken greedily. -/
def matchUnit (cs : List Char) : Option (List Char × List Char) :=
  if listStartsWith ['%'] cs then some (['%'], cs.drop 1)
  else
    ([['u','n','i','t'], ['d','a','y'], ['w','e','e','k'],
      ['m','o','n','t','h'], ['h','o','u','r']].filterMap (fun b =>
        if listStartsWith (b ++ ['s']) cs then some (b ++ ['s'], cs.drop (b.length + 1))
        else if listStartsWith b cs then some (b, cs.drop b.length)
        else none)).head?

/-- One attempt of `(\d+(?:\.\d+)?)\s*(%|units?|days?|...)` at the head. -/
def parseLimitAt (cs : List Char) : Option (List Char × List Char × List Char) :=
  match numTokenAt cs with
  | none => none
  | some (numTok, r1) =>
    match matchUnit (r1.dropWhile isSpaceChar) with
    | some (u, r3) => some (numTok, u, r3)
    | none => none

/-- `re.findall` of the capacity/limit pattern: left-to-right,
non-overlapping, resuming after each match; fuel ≥ text length. -/
def findLimitAux : Nat → List Char → List (String × String)
  | 0, _ => []
  | _, [] => []
  | fuel + 1, c :: rest =>
    match parseLimitAt (c :: rest) with
    | some (numTok, u, after) => (String.mk numTok, String.mk u) :: findLimitAux fuel after
    | none => findLimitAux fuel rest

def sepChar (c : Char) : Bool := c == '/' || c == '-'

def boundaryNext : List Char → Bool
  | [] => true
  | c :: _ => !isWordChar c

/-- One attempt of `\b(\d{1,2}SEP\d{1,2}SEP\d{2,4})\b` (`SEP` being the class of `/` and `-`) at the head (the
leading `\b` is checked by the caller): each digit group must be a maximal
run of the allowed length, since any shorter backtracked take is followed
by a digit and fails the subsequent separator or `\b`. -/
def parseDateAt (cs : List Char) : Option (List Char × List Char) :=
  let d1 := cs.takeWhile Char.isDigit
  if d1.isEmpty || 2 < d1.length then none
  else
    match cs.drop d1.length with
    | s1 :: r1 =>
      if !sepChar s1 then none
      else
        let d2 := r1.takeWhile Char.isDigit
        if d2.isEmpty || 2 < d2.length then none
        else
          match r1.drop d2.length with
          | s2 :: r2 =>
            if !sepChar s2 then none
            else
              let d3 := r2.takeWhile Char.isDigit
              if d3.length < 2 || 4 < d3.length then none
              else
                let rest := r2.drop d3.length
                if boundaryNext rest then some (d1 ++ s1 :: (d2 ++ s2 :: d3), rest)
                else none
          | [] => none
    | [] => none

/-- `re.findall` of the date pattern, tracking the word boundary before each
attempt. -/
def findDateAux : Nat → Bool → List Char → List String
  | 0, _, _ => []
  | _, _, [] => []
  | fuel + 1, atBoundary, c :: rest =>
    if atBoundary then
      match parseDateAt (c :: rest) with
      | some (m, after) => String.mk m :: findDateAux fuel false after
      | none => findDateAux fuel (!isWordChar c) rest
    else findDateAux fuel (!isWordChar c) rest

def dependencyWords : List (List Char) :=
  [['t','h','e','n'], ['a','f','t','e','r'], ['b','e','f','o','r','e'],
   ['r','e','q','u','i','r','e','s'], ['n','e','e','d','s'], ['d','e','p','e','n','d','s']]

/-- `re.search("\\b(then|after|before|requires|needs|depends)\\b")`. -/
def hasDependencyKeyword (t : List Char) : Bool :=
  dependencyWords.any (fun w => occursAsWord w t)

def shortageWords : List (List Char) :=
  [['s','h','o','r','t'], ['m','i','s','s','i','n','g'],
   ['l','a','c','k','i','n','g'], ['n','e','e','d','e','d']]

/-- One attempt of `(\d+(?:\.\d+)?)\s*(short|missing|lacking|needed)` at the
head; yields the whole match (`group(0)`). -/
def parseShortageAt (cs : List Char) : Option (List Char) :=
  match numTokenAt cs with
  | none => none
  | some (numTok, r1) =>
    let ws := r1.takeWhile isSpaceChar
    let r2 := r1.drop ws.length
    match shortageWords.find? (fun w => listStartsWith w r2) with
    | some w => some (numTok ++ ws ++ w)
    | none => none

/-- `re.search` of the shortage pattern: first match only. -/
def findShortage : Nat → List Char → Option String
  | 0, _ => none
  | _, [] => none
  | fuel + 1, c :: rest =>
    match parseShortageAt (c :: rest) with
    | some m => some (String.mk m)
    | none => findShortage fuel rest

/-- `ConstraintExtractor._analyze_remark_text`: the five pattern families in
source order with their fixed confidences. -/
def analyzeRemarkText (text : String) : List TextPattern :=
  let textLower := text.toLower
  let caps := (findLimitAux textLower.length textLower.toList).map
    (fun vu => { patternType := "capacity", matchedText := vu.1 ++ " " ++ vu.2,
                 confidence := 0.7 : TextPattern })
  let dls := (findDateAux text.length true text.toList).map
    (fun d => { patternType := "deadline", matchedText := d, confidence := 0.6 : TextPattern })
  let deps :=
    if hasDependencyKeyword textLower.toList then
      [{ patternType := "dependency", matchedText := text.take 100,
         confidence := 0.5 : TextPattern }]
    else []
  let blocks :=
    if hasNegationPattern textLower.toList then
      [{ patternType := "blocking", matchedText := text.take 100,
         confidence := 0.6 : TextPattern }]
    else []
  let res :=
    match findShortage textLower.length textLower.toList with
    | some m => [{ patternType := "resource", matchedText := m, confidence := 0.7 : TextPattern }]
    | none => []
  caps ++ dls ++ deps ++ blocks ++ res

/-- `ConstraintExtractor._determine_severity`. -/
def determineSeverity (p : TextPattern) : String :=
  if p.confidence > 0.7 then severityFromConstraintType p.patternType else "low"

/-- `ConstraintExtractor._extract_from_remarks`. -/
def extractFromRemarks (s : Sheet) (colName : String) (det : DetectorState) : List Constraint :=
  match colByName s colName with
  | none => []
  | some col =>
    (List.range (sheetRowCount s.cols)).foldr
      (fun idx acc =>
        (let v := col.cells.getD idx .null
         if v.isNull then []
         else
           let remarkStr := (cellToStr v).trim
           if remarkStr.length < 3 then []
           else
             let entityId := getRowEntity s idx det
             (analyzeRemarkText remarkStr).map (fun p =>
               { entityId := entityId
                 constraintType := p.patternType
                 description := "Extracted from remark: " ++ p.matchedText.take 100
                 sourceText := remarkStr
                 sourceSheet := s.name
                 sourceColumn := colName
                 severity := determineSeverity p })) ++ acc)
      []

/-- `ConstraintExtractor._extract_from_category`. -/
def extractFromCategory (s : Sheet) (colName : String) (det : DetectorState) : List Constraint :=
  match colByName s colName with
  | none => []
  | some col =>
    let counts := valueCounts col.cells
    let total : Nat := (counts.map (·.2)).foldr (· + ·) 0
    counts.foldr
      (fun vc acc =>
        (let proportion : Rat := (vc.2 : Rat) / (total : Rat)
         if decide (proportion < 0.05) && decide (1 ≤ vc.2) then
           (List.range (sheetRowCount s.cols)).filterMap (fun idx =>
             if col.cells.getD idx .null = vc.1 then
               some
                 { entityId := getRowEntity s idx det
                   constraintType := "exception"
                   description := "Rare category value: " ++ cellToStr vc.1
                   sourceText := cellToStr vc.1
                   sourceSheet := s.name
                   sourceColumn := colName
                   severity := "medium" }
             else none)
         else []) ++ acc)
      []

/-- `ConstraintExtractor._identify_constraint_columns`: STATUS columns,
REMARK columns, and low-cardinality (< 30% unique) object columns as
category columns. -/
def identifyConstraintColumns (s : Sheet) (prof : SheetProfile) : List (String × String) :=
  prof.columnProfiles.filterMap (fun cp =>
    if cp.semanticType = .status then some (cp.name, "status")
    else if cp.semanticType = .remark then some (cp.name, "remark")
    else
      match colByName s cp.name with
      | some col =>
        if !numericDtype col && decide (cp.uniqueRatio < (0.3 : Rat)) then
          some (cp.name, "category")
        else none
      | none => none)

/-- `ConstraintExtractor.extract_constraints`. -/
def extractConstraints (wb : Workbook) (profiles : List SheetProfile) (det : DetectorState) :
    List Constraint :=
  wb.foldr
    (fun s acc =>
      (match getProfile profiles s.name with
       | none => []
       | some prof =>
         (identifyConstraintColumns s prof).foldr
           (fun ct acc2 =>
             (if ct.2 = "status" then extractFromStatus s ct.1 det
              else if ct.2 = "remark" then extractFromRemarks s ct.1 det
              else extractFromCategory s ct.1 det) ++ acc2)
           []) ++ acc)
    []

/-- The constraint stage of `DecisionIntelligenceEngine.analyze`. -/
def pipelineConstraints (now : Int) (supply : Nat → String) (wb : Workbook) : List Constraint :=
  let norm := normalizeDatasets wb
  let profiles := classifyAllSheets now norm
  let det := detectEntities supply norm profiles
  extractConstraints norm profiles det

/-! ## RelationshipGraph (`core/relationship_graph.py`) -/

/-- `relationship_graph.Relationship` (evidence dict omitted — no claim
reads it). -/
structure Rel where
  sourceEntityId : String
  targetEntityId : String
  relationshipType : String
  strength : Rat
deriving DecidableEq, Repr

/-- The `RelationshipGraph` instance state: the relationship list, the
index keyed by the ordered `(source, target)` pair, and the adjacency map
(value sets modelled in insertion order). -/
structure GraphState where
  relationships : List Rel
  relationshipIndex : List ((String × String) × Rel)
  adjacency : List (String × List String)
deriving DecidableEq, Repr

def emptyGraph : GraphState := ⟨[], [], []⟩

/-- `self.adjacency[a].add(b)` on a defaultdict(set). -/
def addAdj (adj : List (String × List String)) (a b : String) :
    List (String × List String) :=
  match lookupAssoc adj a with
  | some s => insertAssoc adj a (if b ∈ s then s else s ++ [b])
  | none => adj ++ [(a, [b])]

/-- `RelationshipGraph._add_relationship`: the index entry for the ordered
key keeps the higher strength; the adjacency is updated symmetrically in
every case. -/
def addRelationship (st : GraphState) (rel : Rel) : GraphState :=
  let key := (rel.sourceEntityId, rel.targetEntityId)
  let st1 :=
    match lookupAssoc st.relationshipIndex key with
    | some existing =>
      if rel.strength > existing.strength then
        { st with relationshipIndex := insertAssoc st.relationshipIndex key rel }
      else st
    | none =>
      { st with
        relationships := st.relationships ++ [rel]
        relationshipIndex := insertAssoc st.relationshipIndex key rel }
  { st1 with
    adjacency :=
      addAdj (addAdj st1.adjacency rel.sourceEntityId rel.targetEntityId)
        rel.targetEntityId rel.sourceEntityId }

/-- The graph state after `build_graph` has fed a sequence of detected
relationships (its three detectors call `_add_relationship` in order). -/
def buildGraphState (rels : List Rel) : GraphState :=
  rels.foldl addRelationship emptyGraph

/-- `RelationshipGraph.get_relationship`:
`index.get((a, b)) or index.get((b, a))`. -/
def getRelationship (st : GraphState) (sourceId targetId : String) : Option Rel :=
  match lookupAssoc st.relationshipIndex (sourceId, targetId) with
  | some r => some r
  | none => lookupAssoc st.relationshipIndex (targetId, sourceId)

/-- The running maximum the index applies to duplicate ordered keys: fold
the candidates, replacing the current entry on strictly greater strength. -/
def pairFold (init : Option Rel) (ps : List Rel) : Option Rel :=
  ps.foldl
    (fun cur r =>
      some (match cur with
            | none => r
            | some q => if r.strength > q.strength then r else q))
    init

/-! ## DecisionGroupingEngine (`core/decision_grouper.py`) -/

/-- A `DecisionTheme` restricted to the fields `_merge_themes` reads (its
identity and its member decision ids). -/
structure ThemeRec where
  id : String
  decisionIds : List String
deriving DecidableEq, Repr

/-- The overlap `_merge_themes` computes:
`len(decision_set & seen_set) / max(len(decision_set), 1)` — the fraction of
the NEW theme's decision-id set that an already-kept set covers. -/
def overlapRatio (decisionSet seenSet : Finset String) : Rat :=
  ((decisionSet ∩ seenSet).card : Rat) / ((max decisionSet.card 1 : Nat) : Rat)

/-- `DecisionGroupingEngine._merge_themes`: keep a theme unless some
already-kept decision-id set overlaps it by more than 80%. -/
def mergeThemesAux : List ThemeRec → List (Finset String) → List ThemeRec
  | [], _ => []
  | t :: rest, seen =>
    let ds := t.decisionIds.toFinset
    if seen.any (fun s => decide (overlapRatio ds s > 0.8)) then mergeThemesAux rest seen
    else t :: mergeThemesAux rest (ds :: seen)

def mergeThemes (themes : List ThemeRec) : List ThemeRec :=
  mergeThemesAux themes []

/-! ## Canonical (draw-indexed) entity creation

`uuid.uuid4()` is random, so two runs draw different ids. To state what the
runs share, `_create_entities` is replayed with the draw INDEX as the id;
`mapDetectorN` then applies one run's actual draw sequence to the indexed
result. The factorization theorem below shows a run's detector state is
exactly the indexed state relabelled through its draw sequence. -/

/-- `Entity` with the uuid replaced by the index of the draw that created it. -/
structure EntityN where
  id : Nat
  canonicalName : String
  sourceColumns : List String
  sourceSheets : List String
  cardinality : Nat
  isPrimary : Bool
deriving DecidableEq, Repr

structure DetectorStateN where
  entities : List (Nat × EntityN)
  columnToEntity : List ((String × String) × Nat)
  valueIndex : List (String × List Nat)
deriving DecidableEq, Repr

/-- `createEntityStep` with the draw index as the id. -/
def createEntityStepN (st : DetectorStateN) (k : Nat) (group : List EntityCandidate) :
    DetectorStateN :=
  let canonicalName := chooseCanonicalName group
  let sourceColumns := (group.map (·.columnName)).dedup
  let sourceSheets := (group.map (·.sheetName)).dedup
  let allValues := ((group.map (·.uniqueValues)).foldl (· ++ ·) []).dedup
  let isPrimary := decide (sourceSheets.length > 1) || group.any (fun c => decide (c.uniqueRatio > 0.9))
  let e : EntityN :=
    { id := k, canonicalName := canonicalName, sourceColumns := sourceColumns,
      sourceSheets := sourceSheets, cardinality := allValues.length, isPrimary := isPrimary }
  { entities := insertAssoc st.entities e.id e
    columnToEntity :=
      group.foldl (fun m c => insertAssoc m (c.sheetName, c.columnName) e.id) st.columnToEntity
    valueIndex := allValues.foldl (fun vi v => addToValueIndex vi v e.id) st.valueIndex }

/-- `_create_entities` replayed with draw indices as ids. -/
def createEntitiesN (groups : List (List EntityCandidate)) : DetectorStateN :=
  (groups.foldl
    (fun acc group =>
      match group with
      | [] => acc
      | _ :: _ => (createEntityStepN acc.1 acc.2 group, acc.2 + 1))
    (⟨[], [], []⟩, 0)).1

/-- Relabel an indexed entity through a draw sequence. -/
def mapEntityN (s : Nat → String) (e : EntityN) : Entity :=
  { id := s e.id, canonicalName := e.canonicalName, sourceColumns := e.sourceColumns,
    sourceSheets := e.sourceSheets, cardinality := e.cardinality, isPrimary := e.isPrimary }

/-- Relabel an indexed detector state through a draw sequence. -/
def mapDetectorN (s : Nat → String) (st : DetectorStateN) : DetectorState :=
  { entities := st.entities.map (fun p => (s p.1, mapEntityN s p.2))
    columnToEntity := st.columnToEntity.map (fun p => (p.1, s p.2))
    valueIndex := st.valueIndex.map (fun p => (p.1, p.2.map s)) }

/-- All draw indices recorded in an indexed detector state lie below `k`. -/
def idsBelow (st : DetectorStateN) (k : Nat) : Prop :=
  (∀ p ∈ st.entities, p.1 < k) ∧ (∀ p ∈ st.columnToEntity, p.2 < k) ∧
  (∀ p ∈ st.valueIndex, ∀ i ∈ p.2, i < k)

/-! ## Concrete scenario workbooks -/

/-- A deterministic stand-in for the stream of `uuid.uuid4()` draws of one
run (draw `n` is `"uuid-n"`). -/
def uuidSupply : Nat → String := fun n => "uuid-" ++ toString n

/-- Scenario A workbook: a "Budget" sheet with entity column Region and
metric column Target constantly 100, and an "Actuals" sheet with the same
Region values and Actual constantly 70. -/
def wbScenarioA : Workbook :=
  [⟨"Budget",
    [⟨"Region", [.str "North", .str "South", .str "East", .str "West", .str "Central"]⟩,
     ⟨"Target", [.num 100, .num 100, .num 100, .num 100, .num 100]⟩]⟩,
   ⟨"Actuals",
    [⟨"Region", [.str "North", .str "South", .str "East", .str "West", .str "Central"]⟩,
     ⟨"Actual", [.num 70, .num 70, .num 70, .num 70, .num 70]⟩]⟩]

/-- Scenario B workbook: one sheet, Region with 5 unique values over 20 rows
and Status with "Active" ×18 and "Blocked" ×2. -/
def wbScenarioB : Workbook :=
  [⟨"Data",
    [⟨"Region",
      [.str "North", .str "South", .str "East", .str "West", .str "Central",
       .str "North", .str "South", .str "East", .str "West", .str "Central",
       .str "North", .str "South", .str "East", .str "West", .str "Central",
       .str "North", .str "South", .str "East", .str "West", .str "Central"]⟩,
     ⟨"Status",
      [.str "Active", .str "Active", .str "Active", .str "Active", .str "Active",
       .str "Active", .str "Active", .str "Active", .str "Active", .str "Active",
       .str "Active", .str "Active", .str "Active", .str "Active", .str "Active",
       .str "Active", .str "Active", .str "Active", .str "Blocked", .str "Blocked"]⟩]⟩]

/-- A two-sheet workbook whose two identifier columns have disjoint value
sets but identical structural shape (alpha pattern, cardinality 3, length 4). -/
def wbDisjoint : Workbook :=
  [⟨"S1", [⟨"Code", [.str "AAAA", .str "BBBB", .str "CCCC"]⟩]⟩,
   ⟨"S2", [⟨"Kode", [.str "DDDD", .str "EEEE", .str "FFFF"]⟩]⟩]

/-- A concrete clustered entity candidate (a Region-like dimension column),
used to exhibit two runs of `_create_entities` whose `uuid.uuid4()` streams
differ. -/
def candR : EntityCandidate :=
  { columnName := "Region", sheetName := "Data",
    uniqueValues := ["North", "South"], cardinality := 2,
    uniqueRatio := 1/2, valuePattern := "alpha", avgLength := 5,
    isNumericId := false }

/-- An injective stand-in for one run's `uuid.uuid4()` draw sequence
(draw `n` is the character `c` repeated `n` times). -/
def unarySupply (c : Char) : Nat → String := fun n => String.mk (List.replicate n c)

/-! ## Theorems -/

/-- Unfolding lemma for the percentage-gap arithmetic of `_create_gap`. -/
theorem percentageGap_eq (p a : Rat) :
    (createGapFields p a).2.1 =
      if p ≠ 0 then (a - p) / p * 100 else if a ≠ 0 then (100 : Rat) else 0 := rfl

/-- Unfolding lemma for the direction branch of `_create_gap`. -/
theorem direction_eq (p a : Rat) :
    (createGapFields p a).2.2.1 =
      if |(createGapFields p a).2.1| < 5 then "on_target"
      else if a < p then "under" else "over" := rfl

/-- If actual equals plan, the percentage gap computed by `_create_gap` is 0. -/
theorem percentageGap_zero_of_eq (p a : Rat) (h : a = p) :
    (createGapFields p a).2.1 = 0 := by
  subst h
  rw [percentageGap_eq]
  by_cases hp : a = 0
  · subst hp; simp
  · simp [hp]

/-- C1: for every gap record that `GapAnalyzer._create_gap` builds from a
matched plan/actual value pair: `absolute_gap = actual − plan`;
`percentage_gap = absolute_gap/plan·100` for nonzero plan, `100` for zero plan
and nonzero actual, `0` for both zero; direction is `"on_target"` exactly when
`|percentage_gap| < 5`, `"under"` exactly when additionally `actual < plan`,
`"over"` exactly when additionally `actual > plan`; and the sign of
`absolute_gap` matches the direction. -/
theorem C1_create_gap_fields (eid m : String) (p a : Rat) (det : DetectorState) (ps : String) :
    (createGap eid m p a det ps).1.absoluteGap = a - p ∧
    (p ≠ 0 → (createGap eid m p a det ps).1.percentageGap = (a - p) / p * 100) ∧
    (p = 0 → a ≠ 0 → (createGap eid m p a det ps).1.percentageGap = 100) ∧
    (p = 0 → a = 0 → (createGap eid m p a det ps).1.percentageGap = 0) ∧
    ((createGap eid m p a det ps).1.direction = "on_target" ↔
      |(createGap eid m p a det ps).1.percentageGap| < 5) ∧
    ((createGap eid m p a det ps).1.direction = "under" ↔
      5 ≤ |(createGap eid m p a det ps).1.percentageGap| ∧ a < p) ∧
    ((createGap eid m p a det ps).1.direction = "over" ↔
      5 ≤ |(createGap eid m p a det ps).1.percentageGap| ∧ p < a) ∧
    ((createGap eid m p a det ps).1.direction = "under" →
      (createGap eid m p a det ps).1.absoluteGap < 0) ∧
    ((createGap eid m p a det ps).1.direction = "over" →
      0 < (createGap eid m p a det ps).1.absoluteGap) := by
  have habs : (createGap eid m p a det ps).1.absoluteGap = a - p := rfl
  have hpg : (createGap eid m p a det ps).1.percentageGap = (createGapFields p a).2.1 := rfl
  have hdir : (createGap eid m p a det ps).1.direction = (createGapFields p a).2.2.1 := rfl
  refine ⟨habs, ?_, ?_, ?_, ?_, ?_, ?_, ?_, ?_⟩
  · intro hp; rw [hpg, percentageGap_eq]; simp [hp]
  · intro hp ha; rw [hpg, percentageGap_eq]; simp [hp, ha]
  · intro hp ha; rw [hpg, percentageGap_eq]; simp [hp, ha]
  · rw [hdir, hpg, direction_eq]
    split_ifs with h1 h2 <;> simp_all
  · rw [hdir, hpg, direction_eq]
    split_ifs with h1 h2
    · constructor
      · intro h; exact absurd h (by decide)
      · rintro ⟨h5, -⟩; exact absurd h1 (not_lt.mpr h5)
    · exact ⟨fun _ => ⟨not_lt.mp h1, h2⟩, fun _ => rfl⟩
    · constructor
      · intro h; exact absurd h (by decide)
      · rintro ⟨-, hlt⟩; exact absurd hlt h2
  · rw [hdir, hpg, direction_eq]
    split_ifs with h1 h2
    · constructor
      · intro h; exact absurd h (by decide)
      · rintro ⟨h5, -⟩; exact absurd h1 (not_lt.mpr h5)
    · constructor
      · intro h; exact absurd h (by decide)
      · rintro ⟨-, hlt⟩; exact absurd h2 (not_lt.mpr hlt.le)
    · refine ⟨fun _ => ⟨not_lt.mp h1, ?_⟩, fun _ => rfl⟩
      rcases lt_trichotomy p a with h | h | h
      · exact h
      · exact absurd (percentageGap_zero_of_eq p a h.symm) (by
          intro hz; rw [hz] at h1; exact h1 (by norm_num))
      · exact absurd h h2
  · rw [hdir, direction_eq]
    split_ifs with h1 h2
    · intro h; exact absurd h (by decide)
    · intro _; rw [habs]; linarith
    · intro h; exact absurd h (by decide)
  · rw [hdir, direction_eq]
    split_ifs with h1 h2
    · intro h; exact absurd h (by decide)
    · intro h; exact absurd h (by decide)
    · intro _
      rw [habs]
      rcases lt_trichotomy p a with hlt | heq | hgt
      · linarith
      · exact absurd (percentageGap_zero_of_eq p a heq.symm) (by
          intro hz; rw [hz] at h1; exact h1 (by norm_num))
      · exact absurd hgt h2

/-- Witness for C1 at the concrete pair plan = 100, actual = 70. -/
theorem C1_create_gap_fields_witness :
    (100 : Rat) ≠ 0 ∧
    (createGap "e" "m" 100 70 emptyDetector "s").1.percentageGap = (70 - 100) / 100 * 100 ∧
    (createGap "e" "m" 100 70 emptyDetector "s").1.direction = "under" := by
  refine ⟨by norm_num, (C1_create_gap_fields "e" "m" 100 70 emptyDetector "s").2.1 (by norm_num), ?_⟩
  exact ((C1_create_gap_fields "e" "m" 100 70 emptyDetector "s").2.2.2.2.2.1).mpr
    ⟨by with_unfolding_all decide, by norm_num⟩

/-- C2 counterexample: at a percentage gap of exactly 15 the code yields
`"critical"`, not the `"warning"` the claim's `5 ≤ |g| ≤ 15` band asserts. -/
theorem C2_severity_counterexample :
    calculateSeverity 15 = "critical" ∧ calculateSeverity 15 ≠ "warning" := by
  with_unfolding_all decide

/-- C2 (amended): severity is a pure function of `|g|` with `|g| < 5` normal,
`5 ≤ |g| < 15` warning and `|g| ≥ 15` critical (the upper breakpoint is
exclusive for warning), and severity is non-decreasing in `|g|` with its only
breakpoints exactly at 5 and 15. -/
theorem C2_severity_amended :
    (∀ g : Rat,
      (calculateSeverity g = "normal" ↔ |g| < 5) ∧
      (calculateSeverity g = "warning" ↔ 5 ≤ |g| ∧ |g| < 15) ∧
      (calculateSeverity g = "critical" ↔ 15 ≤ |g|)) ∧
    (∀ g₁ g₂ : Rat, |g₁| ≤ |g₂| →
      severityRank (calculateSeverity g₁) ≤ severityRank (calculateSeverity g₂)) := by
  constructor
  · intro g
    simp only [calculateSeverity]
    split_ifs with h1 h2
    · refine ⟨⟨fun _ => h1, fun _ => rfl⟩, ?_, ?_⟩
      · constructor
        · intro h; exact absurd h (by decide)
        · rintro ⟨h5, -⟩; exact absurd h5 (not_le.mpr h1)
      · constructor
        · intro h; exact absurd h (by decide)
        · intro h15; exact absurd h15 (not_le.mpr (by linarith))
    · refine ⟨?_, ?_, ?_⟩
      · constructor
        · intro h; exact absurd h (by decide)
        · intro h; exact absurd h h1
      · exact ⟨fun _ => ⟨not_lt.mp h1, h2⟩, fun _ => rfl⟩
      · constructor
        · intro h; exact absurd h (by decide)
        · intro h15; exact absurd h15 (not_le.mpr h2)
    · refine ⟨?_, ?_, ?_⟩
      · constructor
        · intro h; exact absurd h (by decide)
        · intro h; exact absurd h h1
      · constructor
        · intro h; exact absurd h (by decide)
        · rintro ⟨-, h15⟩; exact absurd h15 h2
      · exact ⟨fun _ => not_lt.mp h2, fun _ => rfl⟩
  · intro g₁ g₂ hle
    simp only [calculateSeverity]
    split_ifs <;> first | decide | (exfalso; linarith)

/-- Witness for C2's amended monotonicity at |7| ≤ |20|. -/
theorem C2_severity_amended_witness :
    |(7 : Rat)| ≤ |(20 : Rat)| ∧
    severityRank (calculateSeverity 7) ≤ severityRank (calculateSeverity 20) :=
  ⟨by norm_num, C2_severity_amended.2 7 20 (by norm_num)⟩

/-- C6: in `_classify_status_structurally`, a status value with population
share below 5% is "blocking" when it exhibits the structural negation
pattern and "exception" otherwise (negation checked first, so it takes
priority over pure rarity), and a value with share in [5%, 20%) is
"in_progress" when it exhibits the gerund/ellipsis process pattern and
"dependency" otherwise. -/
theorem C6_status_classification (status : String) (p : Rat) :
    (p < 0.05 →
      classifyStatusStructurally status p =
        some (if hasNegationPattern status.toList then "blocking" else "exception")) ∧
    (0.05 ≤ p → p < 0.2 →
      classifyStatusStructurally status p =
        some (if hasProcessPattern status.toList then "in_progress" else "dependency")) := by
  constructor
  · intro hp
    unfold classifyStatusStructurally
    rw [if_pos hp]
    split_ifs <;> rfl
  · intro h1 h2
    unfold classifyStatusStructurally
    rw [if_neg (not_lt.mpr h1), if_pos h2]
    split_ifs <;> rfl

/-- Witness for C6 at "no stock" (1%, negation ⇒ blocking) and "blocked"
(10%, no process pattern ⇒ dependency). -/
theorem C6_status_classification_witness :
    (1 / 100 : Rat) < 0.05 ∧
    classifyStatusStructurally "no stock" (1 / 100) = some "blocking" ∧
    (0.05 : Rat) ≤ 1 / 10 ∧ (1 / 10 : Rat) < 0.2 ∧
    classifyStatusStructurally "blocked" (1 / 10) = some "dependency" := by
  refine ⟨by norm_num, ?_, by norm_num, by norm_num, ?_⟩
  · rw [(C6_status_classification "no stock" (1 / 100)).1 (by norm_num)]
    with_unfolding_all decide
  · rw [(C6_status_classification "blocked" (1 / 10)).2 (by norm_num) (by norm_num)]
    with_unfolding_all decide

/-- Membership in a fold that appends blocks. -/
theorem mem_foldr_append {α β : Type} (f : α → List β) (l : List α) (x : β)
    (h : x ∈ l.foldr (fun a acc => f a ++ acc) []) : ∃ a, a ∈ l ∧ x ∈ f a := by
  induction l with
  | nil => simp at h
  | cons a l ih =>
    rcases List.mem_append.mp h with h1 | h2
    · exact ⟨a, List.mem_cons_self a l, h1⟩
    · obtain ⟨b, hb, hx⟩ := ih h2
      exact ⟨b, List.mem_cons_of_mem a hb, hx⟩

/-- C10: every text pattern `_analyze_remark_text` emits carries confidence
at most 0.7 (the five families use 0.7, 0.6, 0.5, 0.6, 0.7), and since
`_determine_severity` applies the type-based high/medium mapping only when
confidence strictly exceeds 0.7, every constraint `_extract_from_remarks`
builds has severity "low". -/
theorem C10_remark_constraints_low :
    (∀ (text : String), ∀ p ∈ analyzeRemarkText text, p.confidence ≤ 0.7) ∧
    (∀ (s : Sheet) (colName : String) (det : DetectorState),
      ∀ c ∈ extractFromRemarks s colName det, c.severity = "low") := by
  have hconf : ∀ (text : String), ∀ p ∈ analyzeRemarkText text, p.confidence ≤ 0.7 := by
    intro text p hp
    unfold analyzeRemarkText at hp
    simp only [List.mem_append] at hp
    rcases hp with ((((h | h) | h) | h) | h)
    · obtain ⟨_, _, rfl⟩ := List.mem_map.mp h; norm_num
    · obtain ⟨_, _, rfl⟩ := List.mem_map.mp h; norm_num
    · revert h; split_ifs <;> intro h <;> simp at h <;> subst h <;> norm_num
    · revert h; split_ifs <;> intro h <;> simp at h <;> subst h <;> norm_num
    · revert h
      rcases hfs : findShortage text.toLower.length text.toLower.toList with _ | m <;>
        intro h <;> simp at h
      subst h; norm_num
  refine ⟨hconf, ?_⟩
  intro s colName det c hc
  unfold extractFromRemarks at hc
  rcases hcol : colByName s colName with _ | col
  · rw [hcol] at hc; simp at hc
  · rw [hcol] at hc
    obtain ⟨idx, -, hx⟩ := mem_foldr_append _ _ _ hc
    dsimp only at hx
    split at hx
    · simp at hx
    · split at hx
      · simp at hx
      · obtain ⟨p, hp, rfl⟩ := List.mem_map.mp hx
        show determineSeverity p = "low"
        unfold determineSeverity
        rw [if_neg (not_lt.mpr (hconf _ p hp))]

set_option maxRecDepth 8000 in
/-- Witness for C10: the remark "5 days short" in a one-row sheet yields a
capacity constraint, and its severity is "low". -/
theorem C10_remark_constraints_low_witness :
    ({ entityId := none, constraintType := "capacity",
       description := "Extracted from remark: 5 days", sourceText := "5 days short",
       sourceSheet := "S", sourceColumn := "Remarks", severity := "low" } : Constraint) ∈
      extractFromRemarks ⟨"S", [⟨"Remarks", [.str "5 days short"]⟩]⟩ "Remarks" emptyDetector ∧
    ({ entityId := none, constraintType := "capacity",
       description := "Extracted from remark: 5 days", sourceText := "5 days short",
       sourceSheet := "S", sourceColumn := "Remarks", severity := "low" } : Constraint).severity
      = "low" := by
  constructor
  · with_unfolding_all decide
  · exact C10_remark_constraints_low.2 ⟨"S", [⟨"Remarks", [.str "5 days short"]⟩]⟩ "Remarks"
      emptyDetector _ (by with_unfolding_all decide)

/-- Invariants of the `_merge_themes` scan: every kept theme's overlap with
every set in `seen` is ≤ 0.8, the kept list is pairwise ≤ 0.8 (later vs
earlier), and it is a sublist of the input. -/
theorem mergeThemesAux_cons (t : ThemeRec) (rest : List ThemeRec)
    (seen : List (Finset String)) :
    mergeThemesAux (t :: rest) seen =
      if seen.any (fun s => decide (overlapRatio t.decisionIds.toFinset s > 0.8))
      then mergeThemesAux rest seen
      else t :: mergeThemesAux rest (t.decisionIds.toFinset :: seen) := rfl

theorem mergeThemesAux_spec (ts : List ThemeRec) (seen : List (Finset String)) :
    (∀ t ∈ mergeThemesAux ts seen, ∀ s ∈ seen, overlapRatio t.decisionIds.toFinset s ≤ 0.8) ∧
    List.Pairwise
      (fun a b => overlapRatio b.decisionIds.toFinset a.decisionIds.toFinset ≤ 0.8)
      (mergeThemesAux ts seen) ∧
    (mergeThemesAux ts seen).Sublist ts := by
  induction ts generalizing seen with
  | nil => simp [mergeThemesAux]
  | cons t rest ih =>
    by_cases hdup :
        seen.any (fun s => decide (overlapRatio t.decisionIds.toFinset s > 0.8)) = true
    · rw [mergeThemesAux_cons, if_pos hdup]
      exact ⟨(ih seen).1, (ih seen).2.1, ((ih seen).2.2).cons t⟩
    · rw [mergeThemesAux_cons, if_neg hdup]
      have hseen : ∀ s ∈ seen, overlapRatio t.decisionIds.toFinset s ≤ 0.8 := by
        intro s hs
        have := (List.any_eq_true.not.mp hdup)
        push_neg at this
        have h2 := this s hs
        simpa using not_lt.mp (by simpa using h2)
      refine ⟨?_, ?_, ?_⟩
      · intro x hx s hs
        rcases List.mem_cons.mp hx with rfl | hx'
        · exact hseen s hs
        · exact (ih (t.decisionIds.toFinset :: seen)).1 x hx' s (List.mem_cons_of_mem _ hs)
      · refine List.Pairwise.cons ?_ (ih (t.decisionIds.toFinset :: seen)).2.1
        intro b hb
        exact (ih (t.decisionIds.toFinset :: seen)).1 b hb t.decisionIds.toFinset
          (List.mem_cons_self _ _)
      · exact ((ih (t.decisionIds.toFinset :: seen)).2.2).cons₂ t

/-- C8: in the output of `DecisionGroupingEngine._merge_themes`, no later
theme's decision-id set overlaps an earlier-kept theme's set by more than
80% (overlap measured as the code does: |new ∩ kept| / |new|), and the
output is an order-preserving subsequence of the input — a theme whose
overlap with an already-kept theme exceeds 80% is dropped, so only the
first-encountered theme is kept. -/
theorem C8_theme_dedup (themes : List ThemeRec) :
    List.Pairwise
      (fun a b => overlapRatio b.decisionIds.toFinset a.decisionIds.toFinset ≤ 0.8)
      (mergeThemes themes) ∧
    (mergeThemes themes).Sublist themes :=
  ⟨(mergeThemesAux_spec themes []).2.1, (mergeThemesAux_spec themes []).2.2⟩

theorem lookupAssoc_nil {α β : Type} [DecidableEq α] (k : α) :
    lookupAssoc ([] : List (α × β)) k = none := rfl

theorem lookupAssoc_cons {α β : Type} [DecidableEq α] (p : α × β) (m : List (α × β)) (k : α) :
    lookupAssoc (p :: m) k = if p.1 = k then some p.2 else lookupAssoc m k := by
  unfold lookupAssoc
  by_cases h : p.1 = k
  · simp [List.find?_cons, h]
  · simp [List.find?_cons, h]

theorem lookupAssoc_append {α β : Type} [DecidableEq α] (m l : List (α × β)) (k : α) :
    lookupAssoc (m ++ l) k =
      match lookupAssoc m k with
      | some v => some v
      | none => lookupAssoc l k := by
  induction m with
  | nil => simp [lookupAssoc_nil]
  | cons p m ih =>
    rw [List.cons_append, lookupAssoc_cons, lookupAssoc_cons]
    by_cases h : p.1 = k
    · simp [h]
    · simp [h, ih]

theorem lookupAssoc_none_of_not_any {α β : Type} [DecidableEq α] (m : List (α × β)) (k : α)
    (h : m.any (fun p => p.1 = k) = false) : lookupAssoc m k = none := by
  induction m with
  | nil => rfl
  | cons p m ih =>
    rw [List.any_cons, Bool.or_eq_false_iff] at h
    rw [lookupAssoc_cons, if_neg (by simpa using h.1)]
    exact ih h.2

theorem lookupAssoc_map_replace {α β : Type} [DecidableEq α] (m : List (α × β)) (k : α) (v : β)
    (h : m.any (fun p => p.1 = k) = true) :
    lookupAssoc (m.map (fun p => if p.1 = k then (k, v) else p)) k = some v := by
  induction m with
  | nil => simp at h
  | cons p m ih =>
    rw [List.map_cons]
    by_cases hp : p.1 = k
    · rw [if_pos hp, lookupAssoc_cons, if_pos rfl]
    · rw [if_neg hp, lookupAssoc_cons, if_neg hp]
      rw [List.any_cons] at h
      rcases Bool.or_eq_true_iff.mp h with h1 | h2
      · exact absurd (of_decide_eq_true h1) hp
      · exact ih h2

theorem lookupAssoc_insert_self {α β : Type} [DecidableEq α] (m : List (α × β)) (k : α) (v : β) :
    lookupAssoc (insertAssoc m k v) k = some v := by
  unfold insertAssoc
  split_ifs with hany
  · exact lookupAssoc_map_replace m k v hany
  · have hfalse : m.any (fun p => p.1 = k) = false := by
      cases hv : m.any (fun p => p.1 = k) with
      | true => exact absurd hv hany
      | false => rfl
    rw [lookupAssoc_append, lookupAssoc_none_of_not_any m k hfalse]
    simp [lookupAssoc_cons]

theorem lookupAssoc_map_replace_ne {α β : Type} [DecidableEq α] (m : List (α × β)) (k : α)
    (v : β) (k' : α) (h : k' ≠ k) :
    lookupAssoc (m.map (fun p => if p.1 = k then (k, v) else p)) k' = lookupAssoc m k' := by
  induction m with
  | nil => rfl
  | cons p m ih =>
    simp only [List.map_cons]
    by_cases hp : p.1 = k
    · rw [if_pos hp, lookupAssoc_cons, lookupAssoc_cons]
      have h1 : ¬((k, v).1 = k') := fun hh => h hh.symm
      have h2 : ¬(p.1 = k') := by rw [hp]; exact fun hh => h hh.symm
      rw [if_neg h1, if_neg h2]
      exact ih
    · rw [if_neg hp, lookupAssoc_cons, lookupAssoc_cons]
      by_cases hpk : p.1 = k'
      · rw [if_pos hpk, if_pos hpk]
      · rw [if_neg hpk, if_neg hpk]; exact ih

theorem lookupAssoc_insert_ne {α β : Type} [DecidableEq α] (m : List (α × β)) (k : α) (v : β)
    (k' : α) (h : k' ≠ k) :
    lookupAssoc (insertAssoc m k v) k' = lookupAssoc m k' := by
  unfold insertAssoc
  split_ifs with hany
  · exact lookupAssoc_map_replace_ne m k v k' h
  · rw [lookupAssoc_append]
    cases hm : lookupAssoc m k' with
    | some w => rfl
    | none =>
      rw [lookupAssoc_cons, if_neg (show ¬((k, v).1 = k') from fun hh => h hh.symm)]
      rfl

/-- `_add_relationship` updates its own ordered key according to the
keep-max rule. -/
theorem addRelationship_lookup_key (st : GraphState) (r : Rel) :
    lookupAssoc (addRelationship st r).relationshipIndex
        (r.sourceEntityId, r.targetEntityId) =
      some
        (match lookupAssoc st.relationshipIndex (r.sourceEntityId, r.targetEntityId) with
         | none => r
         | some q => if r.strength > q.strength then r else q) := by
  unfold addRelationship
  cases hl : lookupAssoc st.relationshipIndex (r.sourceEntityId, r.targetEntityId) with
  | none =>
    dsimp only
    rw [hl]
    exact lookupAssoc_insert_self _ _ _
  | some q =>
    dsimp only
    rw [hl]
    dsimp only
    by_cases hgt : r.strength > q.strength
    · simp only [if_pos hgt]
      exact lookupAssoc_insert_self _ _ _
    · simp only [if_neg hgt]
      exact hl

/-- `_add_relationship` leaves every other ordered key's entry unchanged. -/
theorem addRelationship_lookup_ne (st : GraphState) (r : Rel) (k : String × String)
    (h : k ≠ (r.sourceEntityId, r.targetEntityId)) :
    lookupAssoc (addRelationship st r).relationshipIndex k =
      lookupAssoc st.relationshipIndex k := by
  unfold addRelationship
  cases hl : lookupAssoc st.relationshipIndex (r.sourceEntityId, r.targetEntityId) with
  | none =>
    dsimp only
    rw [hl]
    exact lookupAssoc_insert_ne _ _ _ _ h
  | some q =>
    dsimp only
    rw [hl]
    dsimp only
    by_cases hgt : r.strength > q.strength
    · simp only [if_pos hgt]
      exact lookupAssoc_insert_ne _ _ _ _ h
    · simp only [if_neg hgt]

/-- The index entry of any ordered key after a sequence of
`_add_relationship` calls is the keep-max fold of the added relationships
carrying exactly that key. -/
theorem buildFold_lookup (rels : List Rel) (st : GraphState) (k : String × String) :
    lookupAssoc ((rels.foldl addRelationship st).relationshipIndex) k =
      pairFold (lookupAssoc st.relationshipIndex k)
        (rels.filter (fun r => (r.sourceEntityId, r.targetEntityId) = k)) := by
  induction rels generalizing st with
  | nil => rfl
  | cons r rest ih =>
    rw [List.foldl_cons, ih (addRelationship st r)]
    by_cases hk : (r.sourceEntityId, r.targetEntityId) = k
    · rw [List.filter_cons_of_pos (by simpa using hk)]
      rw [show k = (r.sourceEntityId, r.targetEntityId) from hk.symm]
      rw [addRelationship_lookup_key]
      rfl
    · rw [List.filter_cons_of_neg (by simpa using hk)]
      rw [addRelationship_lookup_ne st r k (fun hh => hk hh.symm)]

/-- The keep-max fold started at an entry yields an entry at least as strong
as everything folded in, and the entry is either the start or one of the
folded relationships. -/
theorem pairFold_some_spec (ps : List Rel) (q0 : Rel) :
    ∃ q, pairFold (some q0) ps = some q ∧ (q = q0 ∨ q ∈ ps) ∧ q0.strength ≤ q.strength ∧
      ∀ r ∈ ps, r.strength ≤ q.strength := by
  induction ps generalizing q0 with
  | nil => exact ⟨q0, rfl, Or.inl rfl, le_refl _, by simp⟩
  | cons r rest ih =>
    have hstep : pairFold (some q0) (r :: rest) =
        pairFold (some (if r.strength > q0.strength then r else q0)) rest := rfl
    obtain ⟨q, hq, hmem, hstr, hall⟩ := ih (if r.strength > q0.strength then r else q0)
    refine ⟨q, hstep ▸ hq, ?_, ?_, ?_⟩
    · rcases hmem with rfl | hq'
      · split_ifs with hgt
        · exact Or.inr (List.mem_cons_self _ _)
        · exact Or.inl rfl
      · exact Or.inr (List.mem_cons_of_mem _ hq')
    · refine le_trans ?_ hstr
      split_ifs with hgt
      · exact le_of_lt hgt
      · exact le_refl _
    · intro r' hr'
      rcases List.mem_cons.mp hr' with rfl | hr''
      · refine le_trans ?_ hstr
        split_ifs with hgt
        · exact le_refl _
        · exact not_lt.mp hgt
      · exact hall r' hr''

theorem pairFold_none_spec (ps : List Rel) (hne : ps ≠ []) :
    ∃ q, pairFold none ps = some q ∧ q ∈ ps ∧ ∀ r ∈ ps, r.strength ≤ q.strength := by
  cases ps with
  | nil => exact absurd rfl hne
  | cons r rest =>
    obtain ⟨q, hq, hmem, hstr, hall⟩ := pairFold_some_spec rest r
    refine ⟨q, hq, ?_, ?_⟩
    · rcases hmem with rfl | hq'
      · exact List.mem_cons_self _ _
      · exact List.mem_cons_of_mem _ hq'
    · intro r' hr'
      rcases List.mem_cons.mp hr' with rfl | hr''
      · exact hstr
      · exact hall r' hr''

theorem pairFold_none_eq_none (ps : List Rel) (h : pairFold none ps = none) : ps = [] := by
  by_contra hne
  obtain ⟨q, hq, -, -⟩ := pairFold_none_spec ps hne
  rw [h] at hq
  exact Option.noConfusion hq

/-- C9 counterexample: adding the unordered pair {a, b} in both orientations
(as `build_graph` can, e.g. via co-occurrence scans of two sheets listing
the columns in opposite orders) leaves two distinct index entries:
`get_relationship(a, b)` returns the strength-0.6 edge while
`get_relationship(b, a)` returns the strength-0.9 edge, so the two lookups
disagree and the (a, b) lookup does not carry the maximum strength. -/
theorem C9_graph_counterexample :
    getRelationship
        (buildGraphState
          [⟨"a", "b", "co-occurs", 0.6⟩, ⟨"b", "a", "references", 0.9⟩]) "a" "b" =
      some ⟨"a", "b", "co-occurs", 0.6⟩ ∧
    getRelationship
        (buildGraphState
          [⟨"a", "b", "co-occurs", 0.6⟩, ⟨"b", "a", "references", 0.9⟩]) "b" "a" =
      some ⟨"b", "a", "references", 0.9⟩ ∧
    getRelationship
        (buildGraphState
          [⟨"a", "b", "co-occurs", 0.6⟩, ⟨"b", "a", "references", 0.9⟩]) "a" "b" ≠
      getRelationship
        (buildGraphState
          [⟨"a", "b", "co-occurs", 0.6⟩, ⟨"b", "a", "references", 0.9⟩]) "b" "a" := by
  refine ⟨?_, ?_, ?_⟩ <;> with_unfolding_all decide

/-- C9 (amended): as long as every relationship added for the unordered pair
{a, b} arrives in the same orientation (a, b) — no (b, a)-oriented edge is
ever added — `get_relationship(a, b)` and `get_relationship(b, a)` agree,
and when relationships for the pair exist the stored one is among them and
carries their maximum strength. Adding both orientations breaks this, as
the counterexample shows. -/
theorem C9_graph_amended (rels : List Rel) (a b : String)
    (hOne : ∀ r ∈ rels, ¬(r.sourceEntityId = b ∧ r.targetEntityId = a)) :
    getRelationship (buildGraphState rels) a b = getRelationship (buildGraphState rels) b a ∧
    (∀ q, getRelationship (buildGraphState rels) a b = some q →
      q ∈ rels.filter (fun r => (r.sourceEntityId, r.targetEntityId) = (a, b)) ∧
      ∀ r ∈ rels.filter (fun r => (r.sourceEntityId, r.targetEntityId) = (a, b)),
        r.strength ≤ q.strength) := by
  by_cases hab : a = b
  · subst hab
    constructor
    · rfl
    · intro q hq
      unfold getRelationship at hq
      have hba : lookupAssoc (buildGraphState rels).relationshipIndex (a, a) = none := by
        rw [buildGraphState, buildFold_lookup]
        rw [show rels.filter
              (fun r => (r.sourceEntityId, r.targetEntityId) = (a, a)) = [] from
            List.filter_eq_nil_iff.mpr (fun r hr => by
              simp only [decide_eq_true_eq, Prod.mk.injEq]
              intro hpair
              exact hOne r hr ⟨hpair.1, hpair.2⟩)]
        rfl
      rw [hba] at hq
      exact Option.noConfusion hq
  · have hba : lookupAssoc (buildGraphState rels).relationshipIndex (b, a) = none := by
      rw [buildGraphState, buildFold_lookup]
      rw [show rels.filter
            (fun r => (r.sourceEntityId, r.targetEntityId) = (b, a)) = [] from
          List.filter_eq_nil_iff.mpr (fun r hr => by
            simp only [decide_eq_true_eq, Prod.mk.injEq]
            intro hpair
            exact hOne r hr ⟨hpair.1, hpair.2⟩)]
      rfl
    have hab2 : lookupAssoc (buildGraphState rels).relationshipIndex (a, b) =
        pairFold none
          (rels.filter (fun r => (r.sourceEntityId, r.targetEntityId) = (a, b))) := by
      rw [buildGraphState, buildFold_lookup]
      rfl
    constructor
    · unfold getRelationship
      rw [hba]
      cases h : lookupAssoc (buildGraphState rels).relationshipIndex (a, b) with
      | none => rfl
      | some r => rfl
    · intro q hq
      unfold getRelationship at hq
      rw [hba] at hq
      have hq2 : lookupAssoc (buildGraphState rels).relationshipIndex (a, b) = some q := by
        cases h : lookupAssoc (buildGraphState rels).relationshipIndex (a, b) with
        | none => rw [h] at hq; exact Option.noConfusion hq
        | some r =>
          rw [h] at hq
          dsimp only at hq
          exact hq
      rw [hab2] at hq2
      have hne : rels.filter (fun r => (r.sourceEntityId, r.targetEntityId) = (a, b)) ≠ [] := by
        intro hnil
        rw [hnil] at hq2
        exact Option.noConfusion hq2
      obtain ⟨q', hq', hmem, hall⟩ := pairFold_none_spec _ hne
      rw [hq2] at hq'
      cases hq'
      exact ⟨hmem, hall⟩

/-- Witness for C9's amended theorem: two same-orientation additions for
(a, b); the stored edge is the stronger one and both lookup orders agree. -/
theorem C9_graph_amended_witness :
    (∀ r ∈ ([⟨"a", "b", "x", 0.6⟩, ⟨"a", "b", "y", 0.9⟩] : List Rel),
      ¬(r.sourceEntityId = "b" ∧ r.targetEntityId = "a")) ∧
    getRelationship
        (buildGraphState [⟨"a", "b", "x", 0.6⟩, ⟨"a", "b", "y", 0.9⟩]) "a" "b" =
      getRelationship
        (buildGraphState [⟨"a", "b", "x", 0.6⟩, ⟨"a", "b", "y", 0.9⟩]) "b" "a" :=
  ⟨by with_unfolding_all decide,
   (C9_graph_amended [⟨"a", "b", "x", 0.6⟩, ⟨"a", "b", "y", 0.9⟩] "a" "b"
      (by with_unfolding_all decide)).1⟩

theorem clusterAux_cons (sim : EntityCandidate → EntityCandidate → Rat) (fuel : Nat)
    (c : EntityCandidate) (rest : List EntityCandidate) :
    clusterAux sim (fuel + 1) (c :: rest) =
      (c :: rest.filter (fun d => decide ((0.3 : Rat) ≤ sim c d))) ::
        clusterAux sim fuel (rest.filter (fun d => !decide ((0.3 : Rat) ≤ sim c d))) := rfl

set_option maxRecDepth 100000 in
/-- C3 counterexample: on `wbDisjoint` the two candidate columns have
disjoint distinct-value sets (Jaccard 0), yet `detect_entities` maps
("S1", "Code") and ("S2", "Kode") to the same entity id — their structural
similarity 0.2·1 + 0.15·1 + 0.15·1 = 0.5 already reaches the 0.3 threshold. -/
theorem C3_entity_linking_counterexample :
    (match findCandidates wbDisjoint (classifyAllSheets 0 wbDisjoint) with
     | [c1, c2] => c1.uniqueValues.all (fun v => !c2.uniqueValues.contains v)
     | _ => false) = true ∧
    (lookupAssoc (detectEntities uuidSupply wbDisjoint
        (classifyAllSheets 0 wbDisjoint)).columnToEntity ("S1", "Code")).isSome = true ∧
    lookupAssoc (detectEntities uuidSupply wbDisjoint
        (classifyAllSheets 0 wbDisjoint)).columnToEntity ("S1", "Code") =
      lookupAssoc (detectEntities uuidSupply wbDisjoint
        (classifyAllSheets 0 wbDisjoint)).columnToEntity ("S2", "Kode") := by
  refine ⟨?_, ?_, ?_⟩ <;> with_unfolding_all decide

/-- C3 (amended): disjoint value sets do not prevent two candidate columns
from sharing an entity; what holds is that disjointness caps the pairwise
similarity at 0.5 (the total non-Jaccard weight, reachable by
pattern/cardinality/length agreement alone), and a candidate is placed
into an existing group exactly when its similarity with the group's seed
reaches the 0.3 threshold — so disjoint columns are co-clustered iff their
structural terms alone reach 0.3 against the seed. -/
theorem C3_entity_linking_amended :
    (∀ c1 c2 : EntityCandidate,
      (∀ v ∈ c1.uniqueValues, v ∉ c2.uniqueValues) →
      calculateSimilarity c1 c2 ≤ 0.5) ∧
    (∀ (cands : List EntityCandidate), ∀ g ∈ clusterCandidates cands,
      ∃ s tl, g = s :: tl ∧ ∀ c ∈ tl, (0.3 : Rat) ≤ calculateSimilarity s c) := by
  constructor
  · intro c1 c2 hdisj
    have hover : (c1.uniqueValues.filter (fun v => v ∈ c2.uniqueValues)).length = 0 := by
      rw [List.length_eq_zero]
      exact List.filter_eq_nil_iff.mpr (fun v hv => by simpa using hdisj v hv)
    have hcr : ((min c1.cardinality c2.cardinality : Nat) : Rat) /
        ((max c1.cardinality c2.cardinality : Nat) : Rat) ≤ 1 := by
      rcases Nat.eq_zero_or_pos (max c1.cardinality c2.cardinality) with h0 | hpos
      · rw [h0]; simp
      · refine div_le_one_of_le₀ ?_ (by positivity)
        exact_mod_cast le_trans (Nat.min_le_left _ _) (Nat.le_max_left _ _)
    simp only [calculateSimilarity, hover, Nat.cast_zero, zero_div]
    split_ifs with hu hpm hl1 hl2
    · norm_num
    · have hl : min c1.avgLength c2.avgLength / max c1.avgLength c2.avgLength ≤ 1 :=
        div_le_one_of_le₀ min_le_max (le_of_lt hl1)
      linarith
    · linarith
    · have hl : min c1.avgLength c2.avgLength / max c1.avgLength c2.avgLength ≤ 1 :=
        div_le_one_of_le₀ min_le_max (le_of_lt hl2)
      linarith
    · linarith
  · intro cands
    suffices h : ∀ (fuel : Nat) (l : List EntityCandidate),
        ∀ g ∈ clusterAux calculateSimilarity fuel l,
        ∃ s tl, g = s :: tl ∧ ∀ c ∈ tl, (0.3 : Rat) ≤ calculateSimilarity s c by
      exact h cands.length cands
    intro fuel
    induction fuel with
    | zero => intro l g hg; simp [clusterAux] at hg
    | succ fuel ih =>
      intro l g hg
      cases l with
      | nil => simp [clusterAux] at hg
      | cons c rest =>
        rw [clusterAux_cons] at hg
        rcases List.mem_cons.mp hg with rfl | hg'
        · refine ⟨c, _, rfl, ?_⟩
          intro d hd
          exact of_decide_eq_true (List.mem_filter.mp hd).2
        · exact ih _ g hg'

/-- Witness for C3's amended theorem at two concrete structurally-identical
candidates with disjoint value sets: similarity stays ≤ 0.5. -/
theorem C3_entity_linking_amended_witness :
    (∀ v ∈ (["AAAA", "BBBB", "CCCC"] : List String),
      v ∉ (["DDDD", "EEEE", "FFFF"] : List String)) ∧
    calculateSimilarity ⟨"Code", "S1", ["AAAA", "BBBB", "CCCC"], 3, 1, "alpha", 4, false⟩
        ⟨"Kode", "S2", ["DDDD", "EEEE", "FFFF"], 3, 1, "alpha", 4, false⟩ ≤ 0.5 :=
  ⟨by decide, C3_entity_linking_amended.1 _ _ (by decide)⟩

set_option maxRecDepth 100000 in
/-- C4 counterexample: on the Scenario A workbook the pipeline produces no
gap at all, not one gap with percentage −30. -/
theorem C4_scenarioA_counterexample :
    ¬(pipelineGaps 0 uuidSupply wbScenarioA).length = 1 := by
  with_unfolding_all decide

set_option maxRecDepth 100000 in
/-- C4 (amended): on the Scenario A workbook the pipeline produces zero
gaps. With no temporal columns, no sheet can score as PLAN (both sheets
classify as MASTER via the potential-key signal), so the separate-sheet
strategy is vacuous; each sheet has a single numeric column, so the
column-pair strategy is vacuous; and no sheet has the COMPARISON role or
comparison flag, so the difference-column strategy is vacuous. -/
theorem C4_scenarioA_amended :
    (classifyAllSheets 0 (normalizeDatasets wbScenarioA)).map
        (fun p => (p.name, p.inferredRole)) =
      [("Budget", Role.master), ("Actuals", Role.master)] ∧
    pipelineGaps 0 uuidSupply wbScenarioA = [] := by
  constructor <;> with_unfolding_all decide

set_option maxRecDepth 100000 in
/-- C7 counterexample: on the Scenario B workbook the pipeline emits no
"blocking" constraint (in fact no constraint at all): the Status column's
uniqueness ratio is exactly 0.1, which fails the strict `< 0.1` STATUS
test, so it is typed DIMENSION, handled as a category column, and
"Blocked" at a 10% share is not below the 5% rarity threshold. -/
theorem C7_scenarioB_counterexample :
    (pipelineConstraints 0 uuidSupply wbScenarioB).any
      (fun c => c.constraintType == "blocking") = false := by
  with_unfolding_all decide

set_option maxRecDepth 100000 in
/-- C7 (amended): Region (5 unique values over 20 rows) is typed DIMENSION
and becomes an entity candidate (it is mapped by `column_to_entity`), but
the pipeline emits no constraint for the "Blocked" rows — the constraint
list is empty. -/
theorem C7_scenarioB_amended :
    (classifyAllSheets 0 (normalizeDatasets wbScenarioB)).map
        (fun p => p.columnProfiles.map (fun cp => (cp.name, cp.semanticType))) =
      [[("Region", SemanticType.dimension), ("Status", SemanticType.dimension)]] ∧
    (lookupAssoc (detectEntities uuidSupply (normalizeDatasets wbScenarioB)
        (classifyAllSheets 0 (normalizeDatasets wbScenarioB))).columnToEntity
      ("Data", "Region")).isSome = true ∧
    pipelineConstraints 0 uuidSupply wbScenarioB = [] := by
  refine ⟨?_, ?_, ?_⟩ <;> with_unfolding_all decide

theorem insertAssoc_fresh {α β : Type} [DecidableEq α] (m : List (α × β)) (k : α) (v : β)
    (h : ∀ p ∈ m, p.1 ≠ k) : insertAssoc m k v = m ++ [(k, v)] := by
  unfold insertAssoc
  rw [if_neg]
  intro hany
  obtain ⟨p, hp, hpk⟩ := List.any_eq_true.mp hany
  exact h p hp (of_decide_eq_true hpk)

theorem lookupAssoc_map_value {α β γ : Type} [DecidableEq α] (f : β → γ) (m : List (α × β))
    (k : α) :
    lookupAssoc (m.map (fun p => (p.1, f p.2))) k = (lookupAssoc m k).map f := by
  induction m with
  | nil => rfl
  | cons p m ih =>
    simp only [List.map_cons]
    rw [lookupAssoc_cons, lookupAssoc_cons]
    by_cases hp : p.1 = k
    · rw [if_pos hp, if_pos hp]; rfl
    · rw [if_neg hp, if_neg hp]; exact ih

theorem insertAssoc_map_value {α β γ : Type} [DecidableEq α] (f : β → γ) (m : List (α × β))
    (k : α) (v : β) :
    insertAssoc (m.map (fun p => (p.1, f p.2))) k (f v) =
      (insertAssoc m k v).map (fun p => (p.1, f p.2)) := by
  unfold insertAssoc
  have hany : ((m.map (fun p => (p.1, f p.2))).any (fun p => p.1 = k)) =
      (m.any (fun p => p.1 = k)) := by
    induction m with
    | nil => rfl
    | cons q m ihm => simp only [List.map_cons, List.any_cons, ihm]
  rw [hany]
  split_ifs with hc
  · rw [List.map_map, List.map_map]
    congr 1
    funext p
    by_cases hp : p.1 = k
    · simp [Function.comp, hp]
    · simp [Function.comp, hp]
  · rw [List.map_append]
    rfl

theorem mem_insertAssoc {α β : Type} [DecidableEq α] (m : List (α × β)) (k : α) (v : β)
    (p : α × β) (h : p ∈ insertAssoc m k v) : p = (k, v) ∨ p ∈ m := by
  unfold insertAssoc at h
  split_ifs at h with hc
  · obtain ⟨q, hq, hpq⟩ := List.mem_map.mp h
    by_cases hqk : q.1 = k
    · rw [if_pos hqk] at hpq; exact Or.inl hpq.symm
    · rw [if_neg hqk] at hpq; exact Or.inr (hpq ▸ hq)
  · rcases List.mem_append.mp h with h1 | h2
    · exact Or.inr h1
    · exact Or.inl (List.mem_singleton.mp h2)

theorem lookupAssoc_mem {α β : Type} [DecidableEq α] (m : List (α × β)) (k : α) (b : β)
    (h : lookupAssoc m k = some b) : (k, b) ∈ m := by
  unfold lookupAssoc at h
  obtain ⟨pr, hfind, hsnd⟩ := Option.map_eq_some'.mp h
  have hmem := List.mem_of_find?_eq_some hfind
  have hpred := List.find?_some hfind
  have hfst : pr.1 = k := of_decide_eq_true hpred
  have : pr = (k, b) := Prod.ext hfst hsnd
  exact this ▸ hmem

theorem addToValueIndex_map (s : Nat → String) (hs : Function.Injective s)
    (vi : List (String × List Nat)) (v : String) (k : Nat)
    (hfresh : ∀ ids, lookupAssoc vi v = some ids → k ∉ ids) :
    addToValueIndex (vi.map (fun p => (p.1, p.2.map s))) v (s k) =
      (addToValueIndex vi v k).map (fun p => (p.1, p.2.map s)) := by
  unfold addToValueIndex
  rw [lookupAssoc_map_value (fun ids => ids.map s) vi v]
  cases hl : lookupAssoc vi v with
  | none =>
    dsimp only [Option.map_none']
    rw [List.map_append]
    rfl
  | some ids =>
    dsimp only [Option.map_some']
    have hknot : k ∉ ids := hfresh ids hl
    have hsknot : s k ∉ ids.map s := by
      intro hmem
      obtain ⟨i, hi, hsi⟩ := List.mem_map.mp hmem
      exact hknot ((hs hsi) ▸ hi)
    rw [if_neg hsknot, if_neg hknot]
    have := insertAssoc_map_value (fun ids => ids.map s) vi v (ids ++ [k])
    simpa using this

theorem addToValueIndex_spec {ι : Type} [DecidableEq ι] (vi : List (String × List ι))
    (v : String) (k : ι) (p : String × List ι) (h : p ∈ addToValueIndex vi v k) :
    p ∈ vi ∨ (p.1 = v ∧ ∀ i ∈ p.2, i = k ∨ ∃ q ∈ vi, q.1 = v ∧ i ∈ q.2) := by
  unfold addToValueIndex at h
  cases hl : lookupAssoc vi v with
  | none =>
    rw [hl] at h
    rcases List.mem_append.mp h with h1 | h2
    · exact Or.inl h1
    · have h3 := List.mem_singleton.mp h2
      subst h3
      exact Or.inr ⟨rfl, by intro i hi; exact Or.inl (List.mem_singleton.mp hi)⟩
  | some ids =>
    rw [hl] at h
    rcases mem_insertAssoc _ _ _ _ h with h1 | h2
    · subst h1
      refine Or.inr ⟨rfl, ?_⟩
      intro i hi
      dsimp only at hi
      by_cases hk : k ∈ ids
      · rw [if_pos hk] at hi
        exact Or.inr ⟨(v, ids), lookupAssoc_mem _ _ _ hl, rfl, hi⟩
      · rw [if_neg hk] at hi
        rcases List.mem_append.mp hi with hia | hib
        · exact Or.inr ⟨(v, ids), lookupAssoc_mem _ _ _ hl, rfl, hia⟩
        · exact Or.inl (List.mem_singleton.mp hib)
    · exact Or.inl h2

theorem foldl_addVI_map (s : Nat → String) (hs : Function.Injective s) (k : Nat) :
    ∀ (vs : List String) (vi : List (String × List Nat)),
      vs.Nodup →
      (∀ p ∈ vi, ∀ i ∈ p.2, i < k ∨ (i = k ∧ p.1 ∉ vs)) →
      vs.foldl (fun vi v => addToValueIndex vi v (s k)) (vi.map (fun p => (p.1, p.2.map s))) =
        (vs.foldl (fun vi v => addToValueIndex vi v k) vi).map (fun p => (p.1, p.2.map s)) := by
  intro vs
  induction vs with
  | nil => intro vi _ _; rfl
  | cons v vs ih =>
    intro vi hnd hinv
    rw [List.foldl_cons, List.foldl_cons]
    have hfresh : ∀ ids, lookupAssoc vi v = some ids → k ∉ ids := by
      intro ids hl hkin
      have hmem := lookupAssoc_mem _ _ _ hl
      rcases hinv (v, ids) hmem k hkin with hlt | ⟨-, hnotin⟩
      · exact lt_irrefl k hlt
      · exact hnotin (List.mem_cons_self v vs)
    rw [addToValueIndex_map s hs vi v k hfresh]
    apply ih
    · exact (List.nodup_cons.mp hnd).2
    · intro p hp i hi
      rcases addToValueIndex_spec vi v k p hp with hold | ⟨hkey, hspec⟩
      · rcases hinv p hold i hi with hlt | ⟨hik, hnotin⟩
        · exact Or.inl hlt
        · exact Or.inr ⟨hik, fun hmem => hnotin (List.mem_cons_of_mem _ hmem)⟩
      · rcases hspec i hi with hik | ⟨q, hq, hqv, hiq⟩
        · refine Or.inr ⟨hik, ?_⟩
          intro hmem
          exact (List.nodup_cons.mp hnd).1 (hkey ▸ hmem)
        · rcases hinv q hq i hiq with hlt | ⟨hik, hnotin⟩
          · exact Or.inl hlt
          · exfalso
            apply hnotin
            rw [hqv]
            exact List.mem_cons_self v vs

theorem foldl_insertCol_map (s : Nat → String) (k : Nat) (g : List EntityCandidate) :
    ∀ (m : List ((String × String) × Nat)),
      g.foldl (fun m c => insertAssoc m (c.sheetName, c.columnName) (s k))
          (m.map (fun p => (p.1, s p.2))) =
        (g.foldl (fun m c => insertAssoc m (c.sheetName, c.columnName) k) m).map
          (fun p => (p.1, s p.2)) := by
  induction g with
  | nil => intro m; rfl
  | cons c g ih =>
    intro m
    rw [List.foldl_cons, List.foldl_cons]
    rw [show insertAssoc (m.map (fun p => (p.1, s p.2))) (c.sheetName, c.columnName) (s k) =
        (insertAssoc m (c.sheetName, c.columnName) k).map (fun p => (p.1, s p.2)) from
      insertAssoc_map_value s m (c.sheetName, c.columnName) k]
    exact ih _

theorem createEntityStep_map (s : Nat → String) (hs : Function.Injective s)
    (st : DetectorStateN) (k : Nat) (group : List EntityCandidate)
    (hb : idsBelow st k) :
    createEntityStep (mapDetectorN s st) (s k) group =
      mapDetectorN s (createEntityStepN st k group) := by
  obtain ⟨hbe, hbc, hbv⟩ := hb
  have hf2 : ∀ p ∈ st.entities, p.1 ≠ k := fun p hp => Nat.ne_of_lt (hbe p hp)
  have hf1 : ∀ p ∈ st.entities.map (fun p => (s p.1, mapEntityN s p.2)), p.1 ≠ s k := by
    intro p hp hEq
    obtain ⟨q, hq, hpq⟩ := List.mem_map.mp hp
    apply Nat.ne_of_lt (hbe q hq)
    apply hs
    rw [← hEq, ← hpq]
  unfold createEntityStep createEntityStepN mapDetectorN
  dsimp only
  simp only [DetectorState.mk.injEq]
  refine ⟨?_, ?_, ?_⟩
  · rw [insertAssoc_fresh _ (s k) _ hf1, insertAssoc_fresh st.entities k _ hf2,
      List.map_append]
    rfl
  · exact foldl_insertCol_map s k group st.columnToEntity
  · apply foldl_addVI_map s hs k _ st.valueIndex (List.nodup_dedup _)
    intro p hp i hi
    exact Or.inl (hbv p hp i hi)

theorem mem_foldl_insertCol (g : List EntityCandidate) :
    ∀ (m : List ((String × String) × Nat)) (v : Nat) (p : (String × String) × Nat),
      p ∈ g.foldl (fun m c => insertAssoc m (c.sheetName, c.columnName) v) m →
      p.2 = v ∨ p ∈ m := by
  induction g with
  | nil => intro m v p hp; exact Or.inr hp
  | cons c g ih =>
    intro m v p hp
    rw [List.foldl_cons] at hp
    rcases ih _ v p hp with h1 | h2
    · exact Or.inl h1
    · rcases mem_insertAssoc _ _ _ _ h2 with h3 | h4
      · rw [h3]; exact Or.inl rfl
      · exact Or.inr h4

theorem mem_foldl_addVI (vs : List String) :
    ∀ (vi : List (String × List Nat)) (kk : Nat) (p : String × List Nat),
      p ∈ vs.foldl (fun vi v => addToValueIndex vi v kk) vi →
      ∀ i ∈ p.2, i = kk ∨ ∃ q ∈ vi, i ∈ q.2 := by
  induction vs with
  | nil => intro vi kk p hp i hi; exact Or.inr ⟨p, hp, hi⟩
  | cons v vs ih =>
    intro vi kk p hp i hi
    rw [List.foldl_cons] at hp
    rcases ih _ kk p hp i hi with h1 | ⟨q, hq, hiq⟩
    · exact Or.inl h1
    · rcases addToValueIndex_spec vi v kk q hq with h2 | ⟨hkey, hspec⟩
      · exact Or.inr ⟨q, h2, hiq⟩
      · rcases hspec i hiq with h3 | ⟨r, hr, _, hir⟩
        · exact Or.inl h3
        · exact Or.inr ⟨r, hr, hir⟩

theorem idsBelow_step (st : DetectorStateN) (k : Nat) (group : List EntityCandidate)
    (hb : idsBelow st k) : idsBelow (createEntityStepN st k group) (k + 1) := by
  obtain ⟨hbe, hbc, hbv⟩ := hb
  refine ⟨?_, ?_, ?_⟩
  · intro p hp
    unfold createEntityStepN at hp
    dsimp only at hp
    rcases mem_insertAssoc _ _ _ _ hp with h1 | h2
    · rw [h1]
      exact Nat.lt_succ_self k
    · exact Nat.lt_succ_of_lt (hbe p h2)
  · intro p hp
    unfold createEntityStepN at hp
    dsimp only at hp
    rcases mem_foldl_insertCol group _ _ p hp with h1 | h2
    · rw [h1]
      exact Nat.lt_succ_self k
    · exact Nat.lt_succ_of_lt (hbc p h2)
  · intro p hp i hi
    unfold createEntityStepN at hp
    dsimp only at hp
    rcases mem_foldl_addVI _ _ _ p hp i hi with h1 | ⟨q, hq, hiq⟩
    · rw [h1]
      exact Nat.lt_succ_self k
    · exact Nat.lt_succ_of_lt (hbv q hq i hiq)

theorem createEntities_fold_map (s : Nat → String) (hs : Function.Injective s) :
    ∀ (groups : List (List EntityCandidate)) (st : DetectorStateN) (k : Nat),
      idsBelow st k →
      groups.foldl
        (fun acc group =>
          match group with
          | [] => acc
          | _ :: _ => (createEntityStep acc.1 (s acc.2) group, acc.2 + 1))
        (mapDetectorN s st, k) =
      (mapDetectorN s
        (groups.foldl
          (fun acc group =>
            match group with
            | [] => acc
            | _ :: _ => (createEntityStepN acc.1 acc.2 group, acc.2 + 1))
          (st, k)).1,
       (groups.foldl
          (fun acc group =>
            match group with
            | [] => acc
            | _ :: _ => (createEntityStepN acc.1 acc.2 group, acc.2 + 1))
          (st, k)).2) := by
  intro groups
  induction groups with
  | nil => intro st k _; rfl
  | cons g groups ih =>
    intro st k hb
    rw [List.foldl_cons, List.foldl_cons]
    cases g with
    | nil => exact ih st k hb
    | cons c cs =>
      dsimp only
      rw [createEntityStep_map s hs st k (c :: cs) hb]
      exact ih (createEntityStepN st k (c :: cs)) (k + 1) (idsBelow_step st k _ hb)

theorem createEntities_eq_mapN (s : Nat → String) (hs : Function.Injective s)
    (groups : List (List EntityCandidate)) :
    createEntities s groups = mapDetectorN s (createEntitiesN groups) := by
  have h0 : idsBelow ⟨[], [], []⟩ 0 := by
    refine ⟨?_, ?_, ?_⟩
    · intro p hp; exact nomatch hp
    · intro p hp; exact nomatch hp
    · intro p hp; exact nomatch hp
  have h := createEntities_fold_map s hs groups ⟨[], [], []⟩ 0 h0
  unfold createEntities createEntitiesN
  exact congrArg Prod.fst h

theorem unarySupply_injective (c : Char) : Function.Injective (unarySupply c) := by
  intro a b h
  have h2 := congrArg (fun t => t.data.length) h
  simpa [unarySupply] using h2

/-- C5: the claim that two independent runs of the analysis on identical
input produce identical results (differing at most in timestamps) is FALSE
at the entity-detection stage: entity ids come from fresh `uuid.uuid4()`
draws, so two runs whose draw streams differ produce different detector
states (different entity ids, column maps and value indices) on the very
same clustered candidate group. -/
theorem C5_determinism_counterexample :
    createEntities (fun _ => "run1-uuid") [[candR]] ≠
      createEntities (fun _ => "run2-uuid") [[candR]] := by
  with_unfolding_all decide

/-- C5 (amended): what IS preserved across runs. `_create_entities` is
deterministic up to the uuid draws: any run whose draw sequence is
injective (uuid4 draws are distinct) yields exactly the draw-indexed
canonical state `createEntitiesN groups` relabelled through its own draw
sequence. Hence two runs with injective draw sequences agree on everything
except the uuid labels: canonical names, source columns/sheets,
cardinalities, primary flags, grouping of columns into entities, and the
value index, are all images of one common canonical state. -/
theorem C5_determinism_amended (s1 s2 : Nat → String)
    (groups : List (List EntityCandidate))
    (h1 : Function.Injective s1) (h2 : Function.Injective s2) :
    createEntities s1 groups = mapDetectorN s1 (createEntitiesN groups) ∧
    createEntities s2 groups = mapDetectorN s2 (createEntitiesN groups) :=
  ⟨createEntities_eq_mapN s1 h1 groups, createEntities_eq_mapN s2 h2 groups⟩

/-- C5 witness: the amended factorization instantiated with two concrete
injective draw sequences on a concrete candidate group. -/
theorem C5_determinism_amended_witness :
    createEntities (unarySupply 'u') [[candR]] =
      mapDetectorN (unarySupply 'u') (createEntitiesN [[candR]]) ∧
    createEntities (unarySupply 'v') [[candR]] =
      mapDetectorN (unarySupply 'v') (createEntitiesN [[candR]]) :=
  C5_determinism_amended (unarySupply 'u') (unarySupply 'v') [[candR]]
    (unarySupply_injective 'u') (unarySupply_injective 'v')

end DecisionLedger
